import Mathlib

/-!
kiagnose: checkup lifecycle orchestrator and configuration loader

A shallow embedding of `kiagnose/internal/checkup/checkup.go` and
`kiagnose/internal/config/loader.go`.

Conventions of the embedding

* A Go pointer `*T` is an `Option T` (`none` is `nil`); a slice `[]*T` is a
  `List T` whose elements are taken to be non-nil objects.
* A Go `error` is an `Option GoError` (`none` is `nil`); a `GoError` is known
  by the text its `Error()` method returns.
* A Go call returning `(T, error)` returns a pair: the code assigns the first
  component whether or not the second is `nil`.
* The cluster is an explicit world state `W`, threaded through every
  collaborator call; the collaborators themselves (the CRUD helpers of the
  packages `namespace`, `rbac` and `configmap`) are fields of a client record,
  so every theorem quantifies over all of their behaviours.
* Each method also produces the list of collaborator calls it issued, in
  order, each with the error the call returned.
-/

namespace Kiagnose

/-! ## Kubernetes API objects (the fields the code sets) -/

/-- Go's `time.Duration`: a signed count of nanoseconds (an `int64` in Go; the values of
this development stay within that range). -/
abbrev Duration := Int

/-- The constant `time.Second`. -/
def Second : Duration := 1000000000

/-- The constant `time.Minute`. -/
def Minute : Duration := 60 * Second

/-- A non-nil Go `error`, known by its message. -/
structure GoError where
  msg : String
deriving DecidableEq

/-- The API type `metav1.TypeMeta`. -/
structure TypeMeta where
  Kind : String := ""
  APIVersion : String := ""
deriving DecidableEq

/-- The API type `metav1.ObjectMeta` (name and namespace). -/
structure ObjectMeta where
  Name : String := ""
  Namespace : String := ""
deriving DecidableEq

/-- The API type `corev1.Namespace`. -/
structure Namespace where
  ObjectMeta : ObjectMeta := {}
deriving DecidableEq

/-- The API type `corev1.ServiceAccount`. -/
structure ServiceAccount where
  ObjectMeta : ObjectMeta := {}
deriving DecidableEq

/-- The API type `corev1.ConfigMap`; `Data` lists the entries of the map. -/
structure ConfigMap where
  ObjectMeta : ObjectMeta := {}
  Data : List (String × String) := []
deriving DecidableEq

/-- The API type `rbacv1.PolicyRule`. -/
structure PolicyRule where
  Verbs : List String := []
  APIGroups : List String := []
  Resources : List String := []
  ResourceNames : List String := []
  NonResourceURLs : List String := []
deriving DecidableEq

/-- The API type `rbacv1.Role`. -/
structure Role where
  TypeMeta : TypeMeta := {}
  ObjectMeta : ObjectMeta := {}
  Rules : List PolicyRule := []
deriving DecidableEq

/-- The API type `rbacv1.ClusterRole`. -/
structure ClusterRole where
  TypeMeta : TypeMeta := {}
  ObjectMeta : ObjectMeta := {}
  Rules : List PolicyRule := []
deriving DecidableEq

/-- The API type `rbacv1.Subject`. -/
structure Subject where
  Kind : String := ""
  APIGroup : String := ""
  Name : String := ""
  Namespace : String := ""
deriving DecidableEq

/-- The API type `rbacv1.RoleRef`. -/
structure RoleRef where
  APIGroup : String := ""
  Kind : String := ""
  Name : String := ""
deriving DecidableEq

/-- The API type `rbacv1.RoleBinding`. -/
structure RoleBinding where
  TypeMeta : TypeMeta := {}
  ObjectMeta : ObjectMeta := {}
  Subjects : List Subject := []
  RoleRef : RoleRef := {}
deriving DecidableEq

/-- The API type `rbacv1.ClusterRoleBinding`. -/
structure ClusterRoleBinding where
  TypeMeta : TypeMeta := {}
  ObjectMeta : ObjectMeta := {}
  Subjects : List Subject := []
  RoleRef : RoleRef := {}
deriving DecidableEq

/-- The API type `corev1.EnvVar`. -/
structure EnvVar where
  Name : String := ""
  Value : String := ""
deriving DecidableEq

/-- The API type `corev1.Container`. -/
structure Container where
  Name : String := ""
  Image : String := ""
  Env : List EnvVar := []
deriving DecidableEq

/-- The API type `corev1.PodSpec`. -/
structure PodSpec where
  ServiceAccountName : String := ""
  RestartPolicy : String := ""
  TerminationGracePeriodSeconds : Option Int := none
  Containers : List Container := []
deriving DecidableEq

/-- The API type `corev1.PodTemplateSpec`. -/
structure PodTemplateSpec where
  ObjectMeta : ObjectMeta := {}
  Spec : PodSpec := {}
deriving DecidableEq

/-- The API type `batchv1.JobSpec`. -/
structure JobSpec where
  BackoffLimit : Option Int := none
  ActiveDeadlineSeconds : Option Int := none
  Template : PodTemplateSpec := {}
deriving DecidableEq

/-- The API type `batchv1.Job`. -/
structure Job where
  ObjectMeta : ObjectMeta := {}
  Spec : JobSpec := {}
deriving DecidableEq

/-- The constant `rbacv1.GroupName`. -/
def rbacv1GroupName : String := "rbac.authorization.k8s.io"

/-- The constant `rbacv1.ServiceAccountKind`. -/
def rbacv1ServiceAccountKind : String := "ServiceAccount"

/-- The constant `corev1.RestartPolicyNever`. -/
def corev1RestartPolicyNever : String := "Never"

/-! ## `float64` arithmetic used by `time.Duration.Seconds` -/

/-- A finite `float64` value, held exactly as the dyadic rational `num / 2 ^ scale`. -/
structure Float64 where
  num : Int
  scale : Nat
deriving DecidableEq

/-- Number of binary digits of `n`, by recursion on a fuel that `n` itself bounds. -/
def bitLenAux : Nat → Nat → Nat
  | 0, _ => 0
  | fuel + 1, n => if n = 0 then 0 else bitLenAux fuel (n / 2) + 1

/-- Number of binary digits of `n` (`0` for `0`). -/
def bitLen (n : Nat) : Nat := bitLenAux n n

/-- Round the positive rational `n / d` to the nearest number with a 53-bit significand,
ties to even; `Float64.roundPos n d = (m, e)` stands for `m * 2 ^ e`.
(Normal range only: the values of this development never underflow or overflow.) -/
def Float64.roundPos (n d : Nat) : Nat × Int :=
  let e0 : Int := (bitLen n : Int) - (bitLen d : Int) - 53
  let scaled : Int → Nat × Nat := fun e =>
    if 0 ≤ e then (n, d * 2 ^ e.toNat) else (n * 2 ^ (-e).toNat, d)
  let e : Int := if (scaled e0).1 / (scaled e0).2 < 2 ^ 53 then e0 else e0 + 1
  let N := (scaled e).1
  let D := (scaled e).2
  let m := N / D
  let r := N % D
  let m := if D < 2 * r ∨ (2 * r = D ∧ m % 2 = 1) then m + 1 else m
  (m, e)

/-- Round the rational `n / d` (`d > 0`) to the nearest `float64`, ties to even. -/
def Float64.round (n : Int) (d : Nat) : Float64 :=
  if n = 0 then ⟨0, 0⟩
  else
    let (m, e) := Float64.roundPos n.natAbs d
    let s : Int := if n < 0 then -1 else 1
    if 0 ≤ e then ⟨s * (m * 2 ^ e.toNat : Nat), 0⟩ else ⟨s * m, (-e).toNat⟩

/-- The conversion `float64(i)` of an integer. -/
def Float64.ofInt (i : Int) : Float64 := Float64.round i 1

/-- The `float64` sum `a + b`: the exact sum, rounded. -/
def Float64.add (a b : Float64) : Float64 :=
  Float64.round (a.num * 2 ^ b.scale + b.num * 2 ^ a.scale) (2 ^ (a.scale + b.scale))

/-- The `float64` quotient `a / b` for `b ≠ 0`: the exact quotient, rounded. -/
def Float64.div (a b : Float64) : Float64 :=
  let s : Int := if b.num < 0 then -1 else 1
  Float64.round (s * a.num * 2 ^ b.scale) (b.num.natAbs * 2 ^ a.scale)

/-- The conversion `int64(f)` of a `float64` within the `int64` range:
the fraction is discarded (truncation toward zero). -/
def Float64.toInt64 (f : Float64) : Int := Int.tdiv f.num (2 ^ f.scale)

/-- The rational number a `Float64` stands for. -/
def Float64.toRat (f : Float64) : ℚ := (f.num : ℚ) / 2 ^ f.scale

/-- The negation of a `float64` value. -/
def Float64.neg (f : Float64) : Float64 := ⟨-f.num, f.scale⟩

/-- The method `Duration.Seconds` of Go's `time` package:
`sec := d / Second; nsec := d % Second; return float64(sec) + float64(nsec)/1e9`. -/
def Duration.Seconds (d : Duration) : Float64 :=
  let sec := Int.tdiv d Second
  let nsec := Int.tmod d Second
  Float64.add (Float64.ofInt sec) (Float64.div (Float64.ofInt nsec) (Float64.ofInt 1000000000))

/-! ## `internal/config`: the resolved configuration -/

/-- A Go `map[string]string`, as the list of its entries in the order a `range`
loop visits them; `List.lookup` is the index expression `m[key]`. -/
abbrev GoMap := List (String × String)

/-- Modelled from the spec: the struct `config.Config` is declared outside the two source
files; these are the fields `Loader.Load` fills and `checkup.New` reads (spec, section 3). -/
structure Config where
  Image : String := ""
  Timeout : Duration := 0
  EnvVars : List EnvVar := []
  ClusterRoles : List ClusterRole := []
  Roles : List Role := []
deriving DecidableEq

/-! ## `internal/checkup`: collaborators, calls and the orchestrator state -/

/-- A collaborator call issued by `Setup` or `Teardown`, with its arguments. -/
inductive Call where
  | namespaceCreate (ns : Option Namespace)
  | createServiceAccount (sa : Option ServiceAccount)
  | configmapCreate (cm : Option ConfigMap)
  | createRoles (roles : List Role)
  | createRoleBindings (roleBindings : List RoleBinding)
  | createClusterRoleBindings (clusterRoleBindings : List ClusterRoleBinding) (timeout : Duration)
  | deleteClusterRoleBindings (clusterRoleBindings : List ClusterRoleBinding) (timeout : Duration)
  | namespaceDeleteAndWait (name : String) (timeout : Duration)
deriving DecidableEq

/-- One entry of a call log: the call and the error it returned. -/
structure Event where
  call : Call
  err : Option GoError
deriving DecidableEq

/-- The six create steps of `Setup`. -/
inductive Step where
  | namespace_ | serviceAccount | resultConfigMap | roles | roleBindings | clusterRoleBindings
deriving DecidableEq

/-- The create step a call belongs to; `none` for the two delete calls. -/
def Call.createStep : Call → Option Step
  | .namespaceCreate _ => some .namespace_
  | .createServiceAccount _ => some .serviceAccount
  | .configmapCreate _ => some .resultConfigMap
  | .createRoles _ => some .roles
  | .createRoleBindings _ => some .roleBindings
  | .createClusterRoleBindings _ _ => some .clusterRoleBindings
  | .deleteClusterRoleBindings _ _ => none
  | .namespaceDeleteAndWait _ _ => none

/-- Whether a call is one of the six create calls. -/
def Call.isCreate (c : Call) : Bool := c.createStep.isSome

/-- Whether a call is one of the two delete calls. -/
def Call.isDelete (c : Call) : Bool := c.createStep.isNone

/-- The create calls of a log, in order. -/
def creates (trace : List Event) : List Event := trace.filter (fun ev => ev.call.isCreate)

/-- The delete calls of a log, in order. -/
def deletes (trace : List Event) : List Event := trace.filter (fun ev => ev.call.isDelete)

/-- The order in which `Setup` is specified to create the objects. -/
def setupOrder : List Step :=
  [.namespace_, .serviceAccount, .resultConfigMap, .roles, .roleBindings, .clusterRoleBindings]

/-- The `client` of a `Checkup` together with the collaborators that act through it
(`namespace.Create`, `rbac.CreateServiceAccount`, `configmap.Create`, `rbac.CreateRoles`,
`rbac.CreateRoleBindings`, `rbac.CreateClusterRoleBindings`, `rbac.DeleteClusterRoleBindings`,
`namespace.DeleteAndWait`): each takes its arguments and the cluster state and returns its Go
results and the new cluster state. -/
structure Client (W : Type) where
  namespaceCreate : Option Namespace → W → (Option Namespace × Option GoError) × W
  createServiceAccount : Option ServiceAccount → W → (Option ServiceAccount × Option GoError) × W
  configmapCreate : Option ConfigMap → W → (Option ConfigMap × Option GoError) × W
  createRoles : List Role → W → (List Role × Option GoError) × W
  createRoleBindings : List RoleBinding → W → (List RoleBinding × Option GoError) × W
  createClusterRoleBindings :
    List ClusterRoleBinding → Duration → W → (List ClusterRoleBinding × Option GoError) × W
  deleteClusterRoleBindings : List ClusterRoleBinding → Duration → W → Option GoError × W
  namespaceDeleteAndWait : String → Duration → W → Option GoError × W

/-- The struct `Checkup`. -/
structure Checkup (W : Type) where
  client : Client W
  teardownTimeout : Duration
  namespace_ : Option Namespace
  serviceAccount : Option ServiceAccount
  resultConfigMap : Option ConfigMap
  roles : List Role
  roleBindings : List RoleBinding
  clusterRoleBindings : List ClusterRoleBinding
  job : Option Job

/-- The constant `NamespaceName`. -/
def NamespaceName : String := "checkup-workspace"
/-- The constant `ServiceAccountName`. -/
def ServiceAccountName : String := "checkup-sa"
/-- The constant `ResultsConfigMapName`. -/
def ResultsConfigMapName : String := "checkup-results"
/-- The constant `ResultsConfigMapWriterRoleName`. -/
def ResultsConfigMapWriterRoleName : String := "results-configmap-writer"

/-! ## Resource spec builders -/

/-- The function `NewNamespace`. -/
def NewNamespace (name : String) : Namespace :=
  { ObjectMeta := { Name := name } }

/-- The function `NewServiceAccount`. -/
def NewServiceAccount (name namespaceName : String) : ServiceAccount :=
  { ObjectMeta := { Name := name, Namespace := namespaceName } }

/-- The function `NewConfigMap`. -/
def NewConfigMap (name namespaceName : String) : ConfigMap :=
  { ObjectMeta := { Name := name, Namespace := namespaceName } }

/-- The function `newConfigMapWriterPolicyRule`. -/
def newConfigMapWriterPolicyRule (cmName : String) : PolicyRule :=
  { Verbs := ["get", "update", "patch"]
    APIGroups := [""]
    Resources := ["configmaps"]
    ResourceNames := [cmName] }

/-- The function `NewConfigMapWriterRole`. -/
def NewConfigMapWriterRole (name namespaceName configMapName : String) : Role :=
  { TypeMeta := { Kind := "Role", APIVersion := rbacv1GroupName }
    ObjectMeta := { Name := name, Namespace := namespaceName }
    Rules := [newConfigMapWriterPolicyRule configMapName] }

/-- The function `NewRoleBinding`. -/
def NewRoleBinding (roleName namespaceName : String) (subject : Subject) : RoleBinding :=
  { TypeMeta := { Kind := "RoleBinding", APIVersion := rbacv1GroupName }
    ObjectMeta := { Name := roleName, Namespace := namespaceName }
    Subjects := [subject]
    RoleRef := { Kind := "Role", APIGroup := rbacv1GroupName, Name := roleName } }

/-- The function `newServiceAccountSubject`. -/
def newServiceAccountSubject (serviceAccountName serviceAccountNamespace : String) : Subject :=
  { Kind := rbacv1ServiceAccountKind
    Name := serviceAccountName
    Namespace := serviceAccountNamespace }

/-- The function `newClusterRoleBinding`. -/
def newClusterRoleBinding (clusterRoleName : String) (subject : Subject) : ClusterRoleBinding :=
  { TypeMeta := { Kind := "ClusterRoleBinding", APIVersion := rbacv1GroupName }
    ObjectMeta := { Name := clusterRoleName }
    Subjects := [subject]
    RoleRef := { Kind := "ClusterRole", APIGroup := rbacv1GroupName, Name := clusterRoleName } }

/-- The function `NewClusterRoleBindings`: its loop appends one binding per cluster role,
in slice order. -/
def NewClusterRoleBindings (clusterRoles : List ClusterRole)
    (serviceAccountName serviceAccountNs : String) : List ClusterRoleBinding :=
  let subject := newServiceAccountSubject serviceAccountName serviceAccountNs
  clusterRoles.foldl
    (fun clusterRoleBindings clusterRole =>
      clusterRoleBindings ++ [newClusterRoleBinding clusterRole.ObjectMeta.Name subject])
    []

/-- The function `newCheckupJob`. -/
def newCheckupJob (name namespaceName serviceAccountName image : String)
    (activeDeadlineSeconds : Int) (envs : List EnvVar) : Job :=
  let containerName := "checkup"
  let checkupContainer : Container := { Name := containerName, Image := image, Env := envs }
  let defaultTerminationGracePeriodSeconds : Int := 5
  let checkupPodSpec : PodTemplateSpec :=
    { ObjectMeta := {}
      Spec :=
        { ServiceAccountName := serviceAccountName
          RestartPolicy := corev1RestartPolicyNever
          TerminationGracePeriodSeconds := some defaultTerminationGracePeriodSeconds
          Containers := [checkupContainer] } }
  let backoffLimit : Int := 0
  { ObjectMeta := { Name := name, Namespace := namespaceName }
    Spec :=
      { BackoffLimit := some backoffLimit
        ActiveDeadlineSeconds := some activeDeadlineSeconds
        Template := checkupPodSpec } }

/-- The function `New` (on a non-nil `checkupConfig`). The loop over `checkupRoles` appends
one role binding per role; the job's deadline is `int64(checkupConfig.Timeout.Seconds())`. -/
def New {W : Type} (c : Client W) (checkupConfig : Config) : Checkup W :=
  let jobName := "checkup-job"
  let resultsConfigMapNameEnvVarName := "RESULT_CONFIGMAP_NAME"
  let resultsConfigMapNameEnvVarNamespace := "RESULT_CONFIGMAP_NAMESPACE"
  let defaultTeardownTimeout : Duration := Minute * 5
  let checkupRoles : List Role :=
    [NewConfigMapWriterRole ResultsConfigMapWriterRoleName NamespaceName ResultsConfigMapName]
  let subject := newServiceAccountSubject ServiceAccountName NamespaceName
  let checkupRoleBindings : List RoleBinding :=
    checkupRoles.foldl
      (fun bindings role => bindings ++ [NewRoleBinding role.ObjectMeta.Name NamespaceName subject])
      []
  let checkupEnvVars : List EnvVar :=
    [ { Name := resultsConfigMapNameEnvVarName, Value := ResultsConfigMapName },
      { Name := resultsConfigMapNameEnvVarNamespace, Value := NamespaceName } ]
  let checkupEnvVars := checkupEnvVars ++ checkupConfig.EnvVars
  { client := c
    teardownTimeout := defaultTeardownTimeout
    namespace_ := some (NewNamespace NamespaceName)
    serviceAccount := some (NewServiceAccount ServiceAccountName NamespaceName)
    resultConfigMap := some (NewConfigMap ResultsConfigMapName NamespaceName)
    roles := checkupRoles
    roleBindings := checkupRoleBindings
    clusterRoleBindings :=
      NewClusterRoleBindings checkupConfig.ClusterRoles ServiceAccountName NamespaceName
    job := some (newCheckupJob jobName NamespaceName ServiceAccountName checkupConfig.Image
      (Duration.Seconds checkupConfig.Timeout).toInt64 checkupEnvVars) }

/-! ## The orchestrator: `Setup`, `Run`, `SetTeardownTimeout`, `Teardown` -/

/-- How a method call ends: it returns its `error` result, or it panics
(a nil pointer is dereferenced). -/
inductive Outcome where
  | returned (err : Option GoError)
  | panicked
deriving DecidableEq

/-- What a method call on a `Checkup` leaves behind: how it ended, the receiver and the
cluster afterwards, and the collaborator calls it issued. -/
structure Exec (W : Type) where
  outcome : Outcome
  checkup : Checkup W
  world : W
  trace : List Event

/-- The error built by `fmt.Errorf("%s: %v", message, err)`. -/
def errorfWrap (message : String) (err : GoError) : GoError :=
  ⟨message ++ ": " ++ err.msg⟩

/-- The function `Setup` defers once the namespace is created, run when `Setup` returns `ret`
with the local variable `err` as given:
`if err != nil { _ = namespace.DeleteAndWait(c.client.CoreV1(), c.namespace.Name, c.teardownTimeout) }`. -/
def Checkup.setupDeferred {W : Type} (c : Checkup W) (w : W) (trace : List Event)
    (err : Option GoError) (ret : Option GoError) : Exec W :=
  match err with
  | none => ⟨.returned ret, c, w, trace⟩
  | some _ =>
    match c.namespace_ with
    | none => ⟨.panicked, c, w, trace⟩
    | some ns =>
      match c.client.namespaceDeleteAndWait ns.ObjectMeta.Name c.teardownTimeout w with
      | (derr, w) =>
        ⟨.returned ret, c, w,
          trace ++ [⟨.namespaceDeleteAndWait ns.ObjectMeta.Name c.teardownTimeout, derr⟩]⟩

/-- The method `Checkup.Setup`. Every create call assigns its first result to the checkup's
field before the error is tested; the deferred function is in force from the second step on,
and sees the local `err` as it stands at the `return` (`nil` on the last one). -/
def Checkup.Setup {W : Type} (c : Checkup W) (w : W) : Exec W :=
  let errMessage := "checkup setup failed"
  match c.client.namespaceCreate c.namespace_ w with
  | ((ns, some err), w) =>
    ⟨.returned (some (errorfWrap errMessage err)), { c with namespace_ := ns }, w,
      [⟨.namespaceCreate c.namespace_, some err⟩]⟩
  | ((ns, none), w) =>
    let trace : List Event := [⟨.namespaceCreate c.namespace_, none⟩]
    let c := { c with namespace_ := ns }
    match c.client.createServiceAccount c.serviceAccount w with
    | ((sa, some err), w) =>
      Checkup.setupDeferred { c with serviceAccount := sa } w
        (trace ++ [⟨.createServiceAccount c.serviceAccount, some err⟩])
        (some err) (some (errorfWrap errMessage err))
    | ((sa, none), w) =>
      let trace := trace ++ [⟨.createServiceAccount c.serviceAccount, none⟩]
      let c := { c with serviceAccount := sa }
      match c.client.configmapCreate c.resultConfigMap w with
      | ((cm, some err), w) =>
        Checkup.setupDeferred { c with resultConfigMap := cm } w
          (trace ++ [⟨.configmapCreate c.resultConfigMap, some err⟩])
          (some err) (some (errorfWrap errMessage err))
      | ((cm, none), w) =>
        let trace := trace ++ [⟨.configmapCreate c.resultConfigMap, none⟩]
        let c := { c with resultConfigMap := cm }
        match c.client.createRoles c.roles w with
        | ((roles, some err), w) =>
          Checkup.setupDeferred { c with roles := roles } w
            (trace ++ [⟨.createRoles c.roles, some err⟩])
            (some err) (some (errorfWrap errMessage err))
        | ((roles, none), w) =>
          let trace := trace ++ [⟨.createRoles c.roles, none⟩]
          let c := { c with roles := roles }
          match c.client.createRoleBindings c.roleBindings w with
          | ((roleBindings, some err), w) =>
            Checkup.setupDeferred { c with roleBindings := roleBindings } w
              (trace ++ [⟨.createRoleBindings c.roleBindings, some err⟩])
              (some err) (some (errorfWrap errMessage err))
          | ((roleBindings, none), w) =>
            let trace := trace ++ [⟨.createRoleBindings c.roleBindings, none⟩]
            let c := { c with roleBindings := roleBindings }
            match c.client.createClusterRoleBindings c.clusterRoleBindings c.teardownTimeout w with
            | ((clusterRoleBindings, some err), w) =>
              Checkup.setupDeferred { c with clusterRoleBindings := clusterRoleBindings } w
                (trace ++
                  [⟨.createClusterRoleBindings c.clusterRoleBindings c.teardownTimeout, some err⟩])
                (some err) (some (errorfWrap errMessage err))
            | ((clusterRoleBindings, none), w) =>
              Checkup.setupDeferred { c with clusterRoleBindings := clusterRoleBindings } w
                (trace ++
                  [⟨.createClusterRoleBindings c.clusterRoleBindings c.teardownTimeout, none⟩])
                none none

/-- The method `Checkup.Run`. -/
def Checkup.Run {W : Type} (c : Checkup W) (w : W) : Exec W :=
  ⟨.returned none, c, w, []⟩

/-- The method `Checkup.SetTeardownTimeout`. -/
def Checkup.SetTeardownTimeout {W : Type} (c : Checkup W) (duration : Duration) : Checkup W :=
  { c with teardownTimeout := duration }

/-- The function `concentrateErrors`: every message is written to the builder,
each followed by a line feed. -/
def concentrateErrors (errs : List GoError) : GoError :=
  ⟨errs.foldl (fun sb err => (sb ++ err.msg) ++ "\n") ""⟩

/-- The error built by `fmt.Errorf("failed to teardown checkup: %v", err)`. -/
def errorfTeardown (err : GoError) : GoError :=
  ⟨"failed to teardown checkup: " ++ err.msg⟩

/-- The method `Checkup.Teardown`; reading `c.namespace.Name` panics on a nil namespace. -/
def Checkup.Teardown {W : Type} (c : Checkup W) (w : W) : Exec W :=
  let errs : List GoError := []
  match c.client.deleteClusterRoleBindings c.clusterRoleBindings c.teardownTimeout w with
  | (err1, w) =>
    let trace : List Event :=
      [⟨.deleteClusterRoleBindings c.clusterRoleBindings c.teardownTimeout, err1⟩]
    let errs := match err1 with
      | some err => errs ++ [err]
      | none => errs
    match c.namespace_ with
    | none => ⟨.panicked, c, w, trace⟩
    | some ns =>
      match c.client.namespaceDeleteAndWait ns.ObjectMeta.Name c.teardownTimeout w with
      | (err2, w) =>
        let trace := trace ++ [⟨.namespaceDeleteAndWait ns.ObjectMeta.Name c.teardownTimeout, err2⟩]
        let errs := match err2 with
          | some err => errs ++ [err]
          | none => errs
        if errs.length > 0 then
          ⟨.returned (some (errorfTeardown (concentrateErrors errs))), c, w, trace⟩
        else
          ⟨.returned none, c, w, trace⟩

/-! ## `internal/config`: the loader -/

/-- The constant `ConfigMapNamespaceEnvVarName`. -/
def ConfigMapNamespaceEnvVarName : String := "CONFIGMAP_NAMESPACE"
/-- The constant `ConfigMapNameEnvVarName`. -/
def ConfigMapNameEnvVarName : String := "CONFIGMAP_NAME"

/-- A cluster read issued by `Loader.Load`, with its arguments. -/
inductive KubeCall where
  | getData (configMapNamespace configMapName : String)
  | getClusterRoles (names : List String)
  | getRoles (names : List String)
deriving DecidableEq

/-- The `kubernetes.Interface` client of a `Loader` together with the collaborators that
read through it (`configmap.GetData`, `rbac.GetClusterRoles`, `rbac.GetRoles`). -/
structure KubeClient (W : Type) where
  getData : String → String → W → (GoMap × Option GoError) × W
  getClusterRoles : List String → W → (List ClusterRole × Option GoError) × W
  getRoles : List String → W → (List Role × Option GoError) × W

/-- Modelled from the spec: the config-map parser (`newConfigMapParser` and the methods of
the value it returns) is declared outside the two source files; `Load` uses it through this
interface, `P` being the parser's state (spec, section 4.1, step 2). -/
structure ConfigMapParser (P : Type) where
  newConfigMapParser : GoMap → P
  Parse : P → P × Option GoError
  ClusterRoleNames : P → List String
  RoleNames : P → List String
  Image : P → String
  Timeout : P → Duration
  Params : P → GoMap

/-- The struct `Loader`. -/
structure Loader (W : Type) where
  client : KubeClient W
  env : GoMap

/-- The function `NewLoader`. -/
def NewLoader {W : Type} (client : KubeClient W) (env : GoMap) : Loader W :=
  { client := client, env := env }

/-- The function `paramsToEnvVars`: its loop appends one entry per map entry, in iteration
order; `toUpper` stands for Go's `strings.ToUpper`. -/
def paramsToEnvVars (toUpper : String → String) (params : GoMap) : List EnvVar :=
  params.foldl (fun envVars kv => envVars ++ [{ Name := toUpper kv.1, Value := kv.2 }]) []

/-- The verb `%q` of `fmt` on a string that needs no escape: the string in double quotes. -/
def quoted (s : String) : String := "\"" ++ s ++ "\""

/-- The error built by `fmt.Errorf("%s: %q", message, name)`. -/
def errorfQuoted (message name : String) : GoError :=
  ⟨message ++ ": " ++ quoted name⟩

/-- What a call of `Load` leaves behind: its two results, the cluster afterwards and the
cluster reads it issued. -/
structure LoadResult (W : Type) where
  config : Option Config
  err : Option GoError
  world : W
  trace : List KubeCall

/-- The method `Loader.Load`; `parserPkg` is the config-map parser and `toUpper` Go's
`strings.ToUpper`, which `paramsToEnvVars` applies to every parameter key. -/
def Loader.Load {W P : Type} (parserPkg : ConfigMapParser P) (toUpper : String → String)
    (l : Loader W) (w : W) : LoadResult W :=
  let envVarErr := "missing required environment variable"
  match l.env.lookup ConfigMapNamespaceEnvVarName with
  | none => ⟨none, some (errorfQuoted envVarErr ConfigMapNamespaceEnvVarName), w, []⟩
  | some configMapNamespace =>
    match l.env.lookup ConfigMapNameEnvVarName with
    | none => ⟨none, some (errorfQuoted envVarErr ConfigMapNameEnvVarName), w, []⟩
    | some configMapName =>
      let trace : List KubeCall := [.getData configMapNamespace configMapName]
      match l.client.getData configMapNamespace configMapName w with
      | ((_, some err), w) => ⟨none, some err, w, trace⟩
      | ((rawData, none), w) =>
        let parser := parserPkg.newConfigMapParser rawData
        match parserPkg.Parse parser with
        | (_, some err) => ⟨none, some err, w, trace⟩
        | (parser, none) =>
          let trace := trace ++ [.getClusterRoles (parserPkg.ClusterRoleNames parser)]
          match l.client.getClusterRoles (parserPkg.ClusterRoleNames parser) w with
          | ((_, some err), w) => ⟨none, some err, w, trace⟩
          | ((clusterRoles, none), w) =>
            let trace := trace ++ [.getRoles (parserPkg.RoleNames parser)]
            match l.client.getRoles (parserPkg.RoleNames parser) w with
            | ((_, some err), w) => ⟨none, some err, w, trace⟩
            | ((roles, none), w) =>
              ⟨some
                { Image := parserPkg.Image parser
                  Timeout := parserPkg.Timeout parser
                  EnvVars := paramsToEnvVars toUpper (parserPkg.Params parser)
                  ClusterRoles := clusterRoles
                  Roles := roles },
                none, w, trace⟩

/-! ## Sample collaborators for concrete runs -/

/-- A sample cluster for concrete runs. Its state counts the calls made so far. The create
step numbered `failAt` (from `0`, the namespace) fails and returns no object; every other
create step returns the object it was given. Deletions fail when `deleteFails`. -/
def sampleClient (failAt : Nat) (deleteFails : Bool) : Client Nat where
  namespaceCreate ns w :=
    if failAt = 0 then ((none, some ⟨"namespace already exists"⟩), w + 1) else ((ns, none), w + 1)
  createServiceAccount sa w :=
    if failAt = 1 then ((none, some ⟨"service account rejected"⟩), w + 1) else ((sa, none), w + 1)
  configmapCreate cm w :=
    if failAt = 2 then ((none, some ⟨"config map rejected"⟩), w + 1) else ((cm, none), w + 1)
  createRoles roles w :=
    if failAt = 3 then (([], some ⟨"role rejected"⟩), w + 1) else ((roles, none), w + 1)
  createRoleBindings roleBindings w :=
    if failAt = 4 then (([], some ⟨"role binding rejected"⟩), w + 1)
    else ((roleBindings, none), w + 1)
  createClusterRoleBindings clusterRoleBindings _ w :=
    if failAt = 5 then (([], some ⟨"cluster role binding rejected"⟩), w + 1)
    else ((clusterRoleBindings, none), w + 1)
  deleteClusterRoleBindings _ _ w :=
    (if deleteFails then some ⟨"cluster role binding deletion failed"⟩ else none, w + 1)
  namespaceDeleteAndWait _ _ w :=
    (if deleteFails then some ⟨"namespace deletion timed out"⟩ else none, w + 1)

/-- A sample cluster for the loader. Its state counts the reads made so far. The config map
`kiagnose/checkup-config` holds `data`; no other config map exists. Every role or cluster-role
name resolves to an object of that name, except the name "absent". -/
def sampleKubeClient (data : GoMap) : KubeClient Nat where
  getData configMapNamespace configMapName w :=
    if configMapNamespace = "kiagnose" ∧ configMapName = "checkup-config" then
      ((data, none), w + 1)
    else (([], some ⟨"configmap not found"⟩), w + 1)
  getClusterRoles names w :=
    if "absent" ∈ names then (([], some ⟨"clusterrole \"absent\" not found"⟩), w + 1)
    else ((names.map (fun name => { ObjectMeta := { Name := name } }), none), w + 1)
  getRoles names w :=
    if "absent" ∈ names then (([], some ⟨"role \"absent\" not found"⟩), w + 1)
    else ((names.map (fun name => { ObjectMeta := { Name := name } }), none), w + 1)

/-- A sample parser: the image is required, the timeout is a count of seconds fixed at 60,
`spec.clusterRoles` and `spec.roles` each name at most one object, and every other key is a
parameter. -/
def sampleParser : ConfigMapParser GoMap where
  newConfigMapParser rawData := rawData
  Parse p :=
    match p.lookup "spec.image" with
    | none => (p, some ⟨"spec.image field is missing"⟩)
    | some _ => (p, none)
  ClusterRoleNames p := (p.lookup "spec.clusterRoles").toList
  RoleNames p := (p.lookup "spec.roles").toList
  Image p := (p.lookup "spec.image").getD ""
  Timeout _ := 60 * Second
  Params p :=
    p.filter (fun kv => kv.1 ≠ "spec.image" ∧ kv.1 ≠ "spec.clusterRoles" ∧ kv.1 ≠ "spec.roles")

/-- Upper-casing of the letters `a` to `z`, as `strings.ToUpper` does on ASCII text. -/
def asciiToUpper (s : String) : String := String.mk (s.data.map Char.toUpper)

/-! ## `Setup`: creation order, fail-fast, rollback

In the theorems of this section the hypotheses `h1` to `h6` name what the six create
collaborators of the checkup's client return when applied in the order of `Setup`, each to
the checkup's field and in the cluster state its predecessor left. Every client has such
results; a result that follows a failed one is what the collaborator would return, and no
conclusion depends on it. -/

/-- Claim C1. Let the six create collaborators return the errors `e1` to `e6` (hypotheses
`h1` to `h6`). The create calls that `Setup` issues are then, in the fixed order namespace,
service account, results config map, roles, role bindings, cluster-role bindings, and each
with the error the client returned: the calls up to the first one that fails, that one
included, and no later one. They come before any delete call. When namespace creation fails it
is the only call and the cluster is left as it left it. When all six succeed, `Setup` returns
`nil`, the six create calls are all the calls it issued (no delete call), and the cluster is
left as the sixth call left it. -/
theorem Setup_creates_in_order_and_stops_at_first_failure {W : Type} (c : Checkup W) (w w1 w2 w3 w4 w5 w6 : W)
    (ns : Option Namespace) (sa : Option ServiceAccount) (cm : Option ConfigMap)
    (roles : List Role) (roleBindings : List RoleBinding)
    (clusterRoleBindings : List ClusterRoleBinding)
    (e1 e2 e3 e4 e5 e6 : Option GoError)
    (h1 : c.client.namespaceCreate c.namespace_ w = ((ns, e1), w1))
    (h2 : c.client.createServiceAccount c.serviceAccount w1 = ((sa, e2), w2))
    (h3 : c.client.configmapCreate c.resultConfigMap w2 = ((cm, e3), w3))
    (h4 : c.client.createRoles c.roles w3 = ((roles, e4), w4))
    (h5 : c.client.createRoleBindings c.roleBindings w4 = ((roleBindings, e5), w5))
    (h6 : c.client.createClusterRoleBindings c.clusterRoleBindings c.teardownTimeout w5 =
      ((clusterRoleBindings, e6), w6)) :
    creates (c.Setup w).trace =
        ([⟨.namespaceCreate c.namespace_, e1⟩,
          ⟨.createServiceAccount c.serviceAccount, e2⟩,
          ⟨.configmapCreate c.resultConfigMap, e3⟩,
          ⟨.createRoles c.roles, e4⟩,
          ⟨.createRoleBindings c.roleBindings, e5⟩,
          ⟨.createClusterRoleBindings c.clusterRoleBindings c.teardownTimeout, e6⟩] :
            List Event).takeWhile (fun ev => ev.err.isNone)
        ++ (([⟨.namespaceCreate c.namespace_, e1⟩,
          ⟨.createServiceAccount c.serviceAccount, e2⟩,
          ⟨.configmapCreate c.resultConfigMap, e3⟩,
          ⟨.createRoles c.roles, e4⟩,
          ⟨.createRoleBindings c.roleBindings, e5⟩,
          ⟨.createClusterRoleBindings c.clusterRoleBindings c.teardownTimeout, e6⟩] :
            List Event).dropWhile (fun ev => ev.err.isNone)).take 1
    ∧ (c.Setup w).trace = creates (c.Setup w).trace ++ deletes (c.Setup w).trace
    ∧ (e1 ≠ none →
        (c.Setup w).trace = [⟨.namespaceCreate c.namespace_, e1⟩] ∧ (c.Setup w).world = w1)
    ∧ (e1 = none → e2 = none → e3 = none → e4 = none → e5 = none → e6 = none →
        (c.Setup w).outcome = .returned none
        ∧ (c.Setup w).trace =
            [⟨.namespaceCreate c.namespace_, none⟩,
              ⟨.createServiceAccount c.serviceAccount, none⟩,
              ⟨.configmapCreate c.resultConfigMap, none⟩,
              ⟨.createRoles c.roles, none⟩,
              ⟨.createRoleBindings c.roleBindings, none⟩,
              ⟨.createClusterRoleBindings c.clusterRoleBindings c.teardownTimeout, none⟩]
        ∧ (c.Setup w).world = w6) := by
  obtain ⟨⟨f1, f2, f3, f4, f5, f6, f7, f8⟩, timeout, nsField, saField, cmField, rolesField,
    rbField, crbField, job⟩ := c
  simp only at h1 h2 h3 h4 h5 h6
  cases e1 <;> cases e2 <;> cases e3 <;> cases e4 <;> cases e5 <;> cases e6 <;> cases ns <;>
    simp [Checkup.Setup, Checkup.setupDeferred, h1, h2, h3, h4, h5, h6, creates, deletes,
      Call.isCreate, Call.isDelete, Call.createStep]

/-- Witness for C1: role creation, the fourth step, fails on the sample cluster; the create
calls issued are the first four, the fourth with the client's error. -/
theorem Setup_creates_in_order_and_stops_at_first_failure_witness :
    creates ((New (sampleClient 3 true) {}).Setup 0).trace =
      [⟨.namespaceCreate (some (NewNamespace "checkup-workspace")), none⟩,
        ⟨.createServiceAccount (some (NewServiceAccount "checkup-sa" "checkup-workspace")), none⟩,
        ⟨.configmapCreate (some (NewConfigMap "checkup-results" "checkup-workspace")), none⟩,
        ⟨.createRoles
          [NewConfigMapWriterRole "results-configmap-writer" "checkup-workspace" "checkup-results"],
          some ⟨"role rejected"⟩⟩] :=
  (Setup_creates_in_order_and_stops_at_first_failure (New (sampleClient 3 true) {})
    0 1 2 3 4 5 6
    (some (NewNamespace NamespaceName)) (some (NewServiceAccount ServiceAccountName NamespaceName))
    (some (NewConfigMap ResultsConfigMapName NamespaceName)) []
    (New (sampleClient 3 true) {}).roleBindings (New (sampleClient 3 true) {}).clusterRoleBindings
    none none none (some ⟨"role rejected"⟩) none none
    rfl rfl rfl rfl rfl rfl).1

/-- Claim C2. Let namespace creation return a namespace object `n` and no error, and let the
first later create call that fails return the error `e` and leave the cluster in state `wf`
(hypotheses `h2` to `h6` and `hfirst`). Then `Setup` applies the client's namespace
delete-and-wait exactly once, to the name of `n` with the checkup's teardown timeout in the
state `wf`: the call is logged with the result `derr` the client returned, it is the only
delete call and comes after all create calls, the last of which is the failing one, and the
cluster is left in the state `wd` that call produced. `Setup` then returns a non-nil error (the
wrapped `e`), whatever `derr` is. -/
theorem Setup_rolls_back_once_after_later_failure {W : Type} (c : Checkup W) (w w1 w2 w3 w4 w5 w6 wf wd : W)
    (n : Namespace) (sa : Option ServiceAccount) (cm : Option ConfigMap)
    (roles : List Role) (roleBindings : List RoleBinding)
    (clusterRoleBindings : List ClusterRoleBinding)
    (e2 e3 e4 e5 e6 derr : Option GoError) (e : GoError)
    (h1 : c.client.namespaceCreate c.namespace_ w = ((some n, none), w1))
    (h2 : c.client.createServiceAccount c.serviceAccount w1 = ((sa, e2), w2))
    (h3 : c.client.configmapCreate c.resultConfigMap w2 = ((cm, e3), w3))
    (h4 : c.client.createRoles c.roles w3 = ((roles, e4), w4))
    (h5 : c.client.createRoleBindings c.roleBindings w4 = ((roleBindings, e5), w5))
    (h6 : c.client.createClusterRoleBindings c.clusterRoleBindings c.teardownTimeout w5 =
      ((clusterRoleBindings, e6), w6))
    (hfirst : ([(e2, w2), (e3, w3), (e4, w4), (e5, w5), (e6, w6)] :
        List (Option GoError × W)).find? (fun r => r.1.isSome) = some (some e, wf))
    (hd : c.client.namespaceDeleteAndWait n.ObjectMeta.Name c.teardownTimeout wf = (derr, wd)) :
    deletes (c.Setup w).trace =
        [⟨.namespaceDeleteAndWait n.ObjectMeta.Name c.teardownTimeout, derr⟩]
    ∧ (c.Setup w).trace = creates (c.Setup w).trace ++
        [⟨.namespaceDeleteAndWait n.ObjectMeta.Name c.teardownTimeout, derr⟩]
    ∧ (∃ call, (creates (c.Setup w).trace).getLast? = some ⟨call, some e⟩)
    ∧ (c.Setup w).world = wd
    ∧ (c.Setup w).outcome = .returned (some ⟨"checkup setup failed: " ++ e.msg⟩) := by
  obtain ⟨⟨f1, f2, f3, f4, f5, f6, f7, f8⟩, timeout, nsField, saField, cmField, rolesField,
    rbField, crbField, job⟩ := c
  simp only at h1 h2 h3 h4 h5 h6 hd
  cases e2 <;> cases e3 <;> cases e4 <;> cases e5 <;> cases e6
  all_goals simp at hfirst
  all_goals
    obtain ⟨rfl, rfl⟩ := hfirst
    simp [Checkup.Setup, Checkup.setupDeferred, h1, h2, h3, h4, h5, h6, hd, creates, deletes,
      Call.isCreate, Call.isDelete, Call.createStep, errorfWrap]

/-- Witness for C2: role creation fails on the sample cluster, whose deletions fail too; the
rollback is the fifth call (it takes the cluster from state 4 to state 5). -/
theorem Setup_rolls_back_once_after_later_failure_witness :
    deletes ((New (sampleClient 3 true) {}).Setup 0).trace =
        [⟨.namespaceDeleteAndWait "checkup-workspace" (300 * Second),
          some ⟨"namespace deletion timed out"⟩⟩]
    ∧ ((New (sampleClient 3 true) {}).Setup 0).world = 5
    ∧ ((New (sampleClient 3 true) {}).Setup 0).outcome =
        .returned (some ⟨"checkup setup failed: role rejected"⟩) :=
  ⟨(Setup_rolls_back_once_after_later_failure (New (sampleClient 3 true) {})
      0 1 2 3 4 5 6 4 5
      (NewNamespace NamespaceName) (some (NewServiceAccount ServiceAccountName NamespaceName))
      (some (NewConfigMap ResultsConfigMapName NamespaceName)) []
      (New (sampleClient 3 true) {}).roleBindings
      (New (sampleClient 3 true) {}).clusterRoleBindings
      none none (some ⟨"role rejected"⟩) none none (some ⟨"namespace deletion timed out"⟩)
      ⟨"role rejected"⟩ rfl rfl rfl rfl rfl rfl rfl rfl).1,
    (Setup_rolls_back_once_after_later_failure (New (sampleClient 3 true) {})
      0 1 2 3 4 5 6 4 5
      (NewNamespace NamespaceName) (some (NewServiceAccount ServiceAccountName NamespaceName))
      (some (NewConfigMap ResultsConfigMapName NamespaceName)) []
      (New (sampleClient 3 true) {}).roleBindings
      (New (sampleClient 3 true) {}).clusterRoleBindings
      none none (some ⟨"role rejected"⟩) none none (some ⟨"namespace deletion timed out"⟩)
      ⟨"role rejected"⟩ rfl rfl rfl rfl rfl rfl rfl rfl).2.2.2.1,
    (Setup_rolls_back_once_after_later_failure (New (sampleClient 3 true) {})
      0 1 2 3 4 5 6 4 5
      (NewNamespace NamespaceName) (some (NewServiceAccount ServiceAccountName NamespaceName))
      (some (NewConfigMap ResultsConfigMapName NamespaceName)) []
      (New (sampleClient 3 true) {}).roleBindings
      (New (sampleClient 3 true) {}).clusterRoleBindings
      none none (some ⟨"role rejected"⟩) none none (some ⟨"namespace deletion timed out"⟩)
      ⟨"role rejected"⟩ rfl rfl rfl rfl rfl rfl rfl rfl).2.2.2.2⟩

/-- Claim C3. Let the six create collaborators return the errors `e1` to `e6` (hypotheses
`h1` to `h6`). Whenever `Setup` returns an error, some create call failed and the message of
the returned error is "checkup setup failed: " followed by the message of the error that the
client returned from the first create call that failed. Conversely, when the first failing
create call returns `e` (and namespace creation, if it succeeded, returned a namespace
object), `Setup` returns exactly that error. The namespace delete-and-wait of the rollback is
an arbitrary collaborator here: its result appears nowhere in the returned error. -/
theorem Setup_error_is_first_creation_error_wrapped {W : Type} (c : Checkup W) (w w1 w2 w3 w4 w5 w6 : W)
    (ns : Option Namespace) (sa : Option ServiceAccount) (cm : Option ConfigMap)
    (roles : List Role) (roleBindings : List RoleBinding)
    (clusterRoleBindings : List ClusterRoleBinding)
    (e1 e2 e3 e4 e5 e6 : Option GoError)
    (h1 : c.client.namespaceCreate c.namespace_ w = ((ns, e1), w1))
    (h2 : c.client.createServiceAccount c.serviceAccount w1 = ((sa, e2), w2))
    (h3 : c.client.configmapCreate c.resultConfigMap w2 = ((cm, e3), w3))
    (h4 : c.client.createRoles c.roles w3 = ((roles, e4), w4))
    (h5 : c.client.createRoleBindings c.roleBindings w4 = ((roleBindings, e5), w5))
    (h6 : c.client.createClusterRoleBindings c.clusterRoleBindings c.teardownTimeout w5 =
      ((clusterRoleBindings, e6), w6)) :
    (∀ x, (c.Setup w).outcome = .returned (some x) →
      ∃ e, [e1, e2, e3, e4, e5, e6].find? (fun r => r.isSome) = some (some e)
        ∧ x.msg = "checkup setup failed: " ++ e.msg)
    ∧ (∀ e, [e1, e2, e3, e4, e5, e6].find? (fun r => r.isSome) = some (some e) →
      (e1 = none → ns ≠ none) →
      (c.Setup w).outcome = .returned (some ⟨"checkup setup failed: " ++ e.msg⟩)) := by
  obtain ⟨⟨f1, f2, f3, f4, f5, f6, f7, f8⟩, timeout, nsField, saField, cmField, rolesField,
    rbField, crbField, job⟩ := c
  simp only at h1 h2 h3 h4 h5 h6
  cases e1 <;> cases e2 <;> cases e3 <;> cases e4 <;> cases e5 <;> cases e6 <;> cases ns <;>
    simp [Checkup.Setup, Checkup.setupDeferred, h1, h2, h3, h4, h5, h6, errorfWrap]

/-- Witness for C3: role-binding creation fails and the rollback fails as well; the returned
error carries the role-binding error, not the rollback's. -/
theorem Setup_error_is_first_creation_error_wrapped_witness :
    ((New (sampleClient 4 true) {}).Setup 0).outcome =
      .returned (some ⟨"checkup setup failed: " ++ "role binding rejected"⟩) :=
  (Setup_error_is_first_creation_error_wrapped (New (sampleClient 4 true) {})
    0 1 2 3 4 5 6
    (some (NewNamespace NamespaceName)) (some (NewServiceAccount ServiceAccountName NamespaceName))
    (some (NewConfigMap ResultsConfigMapName NamespaceName))
    (New (sampleClient 4 true) {}).roles [] (New (sampleClient 4 true) {}).clusterRoleBindings
    none none none none (some ⟨"role binding rejected"⟩) none
    rfl rfl rfl rfl rfl rfl).2 ⟨"role binding rejected"⟩ rfl (fun _ => by simp)

/-- Counterexample to C4: on the sample cluster the namespace already exists; `Setup` returns
the wrapped creation error after the single call `namespace.Create`: no delete-and-wait is in
its log, and the cluster, whose state counts the calls applied, has seen one call only. -/
theorem Setup_namespace_failure_issues_no_rollback :
    ((New (sampleClient 0 false) {}).Setup 0).outcome =
        .returned (some ⟨"checkup setup failed: namespace already exists"⟩)
    ∧ ((New (sampleClient 0 false) {}).Setup 0).trace =
        [⟨.namespaceCreate (some (NewNamespace "checkup-workspace")),
          some ⟨"namespace already exists"⟩⟩]
    ∧ ((New (sampleClient 0 false) {}).Setup 0).world = 1
    ∧ ¬ ∃ name timeout derr,
        (⟨.namespaceDeleteAndWait name timeout, derr⟩ : Event) ∈
          ((New (sampleClient 0 false) {}).Setup 0).trace := by
  refine ⟨rfl, rfl, rfl, ?_⟩
  rintro ⟨name, timeout, derr, h⟩
  have htrace : ((New (sampleClient 0 false) {}).Setup 0).trace =
      [⟨.namespaceCreate (some (NewNamespace "checkup-workspace")),
        some ⟨"namespace already exists"⟩⟩] := rfl
  rw [htrace] at h
  simp at h

/-- Claim C4, amended. Let the six create collaborators return the errors `e1` to `e6`
(hypotheses `h1` to `h6`). When namespace creation itself fails with `e`, `Setup` returns the
wrapped `e` after that single call: no delete-and-wait is applied, the cluster is left as
namespace creation left it. When namespace creation succeeds and returns the object `n`, and
the first later create call that fails returns `e` and leaves the cluster in state `wf`, the
rollback is triggered: the client's namespace delete-and-wait is applied once, to the name of
`n` with the teardown timeout in state `wf`, and `Setup` returns the wrapped `e`. When
namespace creation returns neither an error nor an object, a later failure ends in a panic at
the nil namespace, before any delete-and-wait. -/
theorem Setup_rollback_only_after_namespace_created {W : Type} (c : Checkup W)
    (w w1 w2 w3 w4 w5 w6 : W)
    (ns : Option Namespace) (sa : Option ServiceAccount) (cm : Option ConfigMap)
    (roles : List Role) (roleBindings : List RoleBinding)
    (clusterRoleBindings : List ClusterRoleBinding)
    (e1 e2 e3 e4 e5 e6 : Option GoError)
    (h1 : c.client.namespaceCreate c.namespace_ w = ((ns, e1), w1))
    (h2 : c.client.createServiceAccount c.serviceAccount w1 = ((sa, e2), w2))
    (h3 : c.client.configmapCreate c.resultConfigMap w2 = ((cm, e3), w3))
    (h4 : c.client.createRoles c.roles w3 = ((roles, e4), w4))
    (h5 : c.client.createRoleBindings c.roleBindings w4 = ((roleBindings, e5), w5))
    (h6 : c.client.createClusterRoleBindings c.clusterRoleBindings c.teardownTimeout w5 =
      ((clusterRoleBindings, e6), w6)) :
    (∀ e, e1 = some e →
      (c.Setup w).trace = [⟨.namespaceCreate c.namespace_, some e⟩]
      ∧ (c.Setup w).world = w1
      ∧ (c.Setup w).outcome = .returned (some ⟨"checkup setup failed: " ++ e.msg⟩))
    ∧ (∀ n e wf derr wd, ns = some n → e1 = none →
      ([(e2, w2), (e3, w3), (e4, w4), (e5, w5), (e6, w6)] :
        List (Option GoError × W)).find? (fun r => r.1.isSome) = some (some e, wf) →
      c.client.namespaceDeleteAndWait n.ObjectMeta.Name c.teardownTimeout wf = (derr, wd) →
      deletes (c.Setup w).trace =
          [⟨.namespaceDeleteAndWait n.ObjectMeta.Name c.teardownTimeout, derr⟩]
      ∧ (c.Setup w).world = wd
      ∧ (c.Setup w).outcome = .returned (some ⟨"checkup setup failed: " ++ e.msg⟩))
    ∧ (∀ e wf, ns = none → e1 = none →
      ([(e2, w2), (e3, w3), (e4, w4), (e5, w5), (e6, w6)] :
        List (Option GoError × W)).find? (fun r => r.1.isSome) = some (some e, wf) →
      deletes (c.Setup w).trace = []
      ∧ (c.Setup w).world = wf
      ∧ (c.Setup w).outcome = .panicked) := by
  obtain ⟨⟨f1, f2, f3, f4, f5, f6, f7, f8⟩, timeout, nsField, saField, cmField, rolesField,
    rbField, crbField, job⟩ := c
  simp only at h1 h2 h3 h4 h5 h6
  refine ⟨?_, ?_, ?_⟩
  · intro e he
    subst he
    simp [Checkup.Setup, h1, errorfWrap]
  · intro n e wf derr wd hns he1 hfirst hd
    subst hns he1
    simp only at hd
    cases e2 <;> cases e3 <;> cases e4 <;> cases e5 <;> cases e6
    all_goals simp at hfirst
    all_goals
      obtain ⟨rfl, rfl⟩ := hfirst
      simp [Checkup.Setup, Checkup.setupDeferred, h1, h2, h3, h4, h5, h6, hd, deletes,
        Call.isDelete, Call.createStep, errorfWrap]
  · intro e wf hns he1 hfirst
    subst hns he1
    cases e2 <;> cases e3 <;> cases e4 <;> cases e5 <;> cases e6
    all_goals simp at hfirst
    all_goals
      obtain ⟨rfl, rfl⟩ := hfirst
      simp [Checkup.Setup, Checkup.setupDeferred, h1, h2, h3, h4, h5, h6, deletes,
        Call.isDelete, Call.createStep]

/-- Witness for C4 (amended): config-map creation fails after the namespace was created, and
the rollback, the fourth call, succeeds. -/
theorem Setup_rollback_only_after_namespace_created_witness :
    deletes ((New (sampleClient 2 false) {}).Setup 0).trace =
        [⟨.namespaceDeleteAndWait "checkup-workspace" (300 * Second), none⟩]
    ∧ ((New (sampleClient 2 false) {}).Setup 0).world = 4
    ∧ ((New (sampleClient 2 false) {}).Setup 0).outcome =
        .returned (some ⟨"checkup setup failed: " ++ "config map rejected"⟩) :=
  (Setup_rollback_only_after_namespace_created (New (sampleClient 2 false) {})
    0 1 2 3 4 5 6
    (some (NewNamespace NamespaceName)) (some (NewServiceAccount ServiceAccountName NamespaceName))
    none (New (sampleClient 2 false) {}).roles (New (sampleClient 2 false) {}).roleBindings
    (New (sampleClient 2 false) {}).clusterRoleBindings
    none none (some ⟨"config map rejected"⟩) none none none
    rfl rfl rfl rfl rfl rfl).2.1
    (NewNamespace NamespaceName) ⟨"config map rejected"⟩ 3 none 4 rfl rfl rfl rfl

/-! ## `Teardown`: both deletions, aggregated error -/

/-- Claim C5. For a checkup that holds a namespace object, whatever the two deletion
collaborators return, `Teardown` issues exactly two calls: cluster-role-binding deletion on
the checkup's cluster-role bindings, then namespace delete-and-wait on the checkup's namespace
name, both with the teardown timeout and the second in the cluster state the first one left,
whether or not the first failed. It returns `nil` exactly when both succeed; otherwise it
returns one error whose text is "failed to teardown checkup: " followed by the message of each
failing step and a line feed, the cluster-role-binding message first. -/
theorem Teardown_attempts_both_deletions_and_aggregates {W : Type} (c : Checkup W) (w : W)
    (ns : Namespace) (hns : c.namespace_ = some ns) :
    (c.Teardown w).trace =
        [⟨.deleteClusterRoleBindings c.clusterRoleBindings c.teardownTimeout,
            (c.client.deleteClusterRoleBindings c.clusterRoleBindings c.teardownTimeout w).1⟩,
          ⟨.namespaceDeleteAndWait ns.ObjectMeta.Name c.teardownTimeout,
            (c.client.namespaceDeleteAndWait ns.ObjectMeta.Name c.teardownTimeout
              (c.client.deleteClusterRoleBindings c.clusterRoleBindings c.teardownTimeout w).2).1⟩]
    ∧ ((c.Teardown w).outcome = .returned none ↔ ∀ ev ∈ (c.Teardown w).trace, ev.err = none)
    ∧ (∀ e1 e2 : GoError,
        ((c.Teardown w).trace.map (fun ev => ev.err) = [some e1, none] →
          (c.Teardown w).outcome =
            .returned (some ⟨"failed to teardown checkup: " ++ e1.msg ++ "\n"⟩))
        ∧ ((c.Teardown w).trace.map (fun ev => ev.err) = [none, some e2] →
          (c.Teardown w).outcome =
            .returned (some ⟨"failed to teardown checkup: " ++ e2.msg ++ "\n"⟩))
        ∧ ((c.Teardown w).trace.map (fun ev => ev.err) = [some e1, some e2] →
          (c.Teardown w).outcome =
            .returned (some ⟨"failed to teardown checkup: " ++ e1.msg ++ "\n" ++ e2.msg ++ "\n"⟩))) := by
  obtain ⟨⟨_, _, _, _, _, _, deleteCRBs, deleteNs⟩, timeout, nsField, _, _, _, _, crbs, _⟩ := c
  simp only at hns
  subst hns
  simp only [Checkup.Teardown]
  generalize deleteCRBs crbs timeout w = r1
  obtain ⟨err1, w1⟩ := r1
  simp only []
  generalize deleteNs ns.ObjectMeta.Name timeout w1 = r2
  obtain ⟨err2, w2⟩ := r2
  cases err1 <;> cases err2 <;>
    simp [concentrateErrors, errorfTeardown, String.append_assoc]

/-- Witness for C5: both deletions fail on the sample cluster; the checkup built by `New`
holds its namespace object, and the aggregate text carries both messages, one per line. -/
theorem Teardown_attempts_both_deletions_and_aggregates_witness :
    (New (sampleClient 6 true) {}).namespace_ = some (NewNamespace NamespaceName)
    ∧ ((New (sampleClient 6 true) {}).Teardown 0).trace =
        [⟨.deleteClusterRoleBindings [] (300 * Second),
            some ⟨"cluster role binding deletion failed"⟩⟩,
          ⟨.namespaceDeleteAndWait "checkup-workspace" (300 * Second),
            some ⟨"namespace deletion timed out"⟩⟩]
    ∧ ((New (sampleClient 6 true) {}).Teardown 0).outcome =
        .returned (some ⟨"failed to teardown checkup: " ++
          "cluster role binding deletion failed" ++ "\n" ++ "namespace deletion timed out" ++ "\n"⟩) :=
  ⟨rfl,
    (Teardown_attempts_both_deletions_and_aggregates (New (sampleClient 6 true) {}) 0
      (NewNamespace NamespaceName) rfl).1,
    ((Teardown_attempts_both_deletions_and_aggregates (New (sampleClient 6 true) {}) 0
      (NewNamespace NamespaceName) rfl).2.2
        ⟨"cluster role binding deletion failed"⟩ ⟨"namespace deletion timed out"⟩).2.2 rfl⟩

/-- The builder loop of `concentrateErrors`, started from `acc ++ m ++ "\n"`, yields what
`String.intercalate` accumulates from `acc ++ m`, followed by one more line feed. -/
theorem concentrateErrors_foldl (errs : List GoError) (acc m : String) :
    errs.foldl (fun sb err => (sb ++ err.msg) ++ "\n") (acc ++ m ++ "\n") =
      String.intercalate.go (acc ++ m) "\n" (errs.map (fun err => err.msg)) ++ "\n" := by
  induction errs generalizing acc m with
  | nil => simp [String.intercalate.go]
  | cons err rest ih =>
    simp only [List.foldl_cons, List.map_cons, String.intercalate.go]
    have h := ih (acc ++ m ++ "\n") err.msg
    simpa [String.append_assoc] using h

/-- Counterexample to C6: for the one-element list holding an error with message "a" the
aggregate message is "a" followed by a line feed, not the newline-joined text "a". -/
theorem concentrateErrors_single_has_trailing_newline :
    (concentrateErrors [⟨"a"⟩]).msg = "a\n"
    ∧ (concentrateErrors [⟨"a"⟩]).msg ≠
        "\n".intercalate ([(⟨"a"⟩ : GoError)].map (fun err => err.msg)) := by
  decide

/-- Claim C6, amended. For every non-empty list of collected errors the aggregate message
built by `concentrateErrors` is the messages in collection order, joined by single line
feeds, followed by one trailing line feed (every message is terminated by "\n"). -/
theorem concentrateErrors_is_newline_terminated (errs : List GoError) (h : errs ≠ []) :
    (concentrateErrors errs).msg =
      "\n".intercalate (errs.map (fun err => err.msg)) ++ "\n" := by
  cases errs with
  | nil => exact absurd rfl h
  | cons err rest =>
    have key := concentrateErrors_foldl rest "" err.msg
    simpa [concentrateErrors, String.intercalate] using key

/-- Witness for C6 (amended): two collected errors. -/
theorem concentrateErrors_is_newline_terminated_witness :
    (concentrateErrors [⟨"first"⟩, ⟨"second"⟩]).msg =
      "\n".intercalate ([(⟨"first"⟩ : GoError), ⟨"second"⟩].map (fun err => err.msg)) ++ "\n" :=
  concentrateErrors_is_newline_terminated [⟨"first"⟩, ⟨"second"⟩] (by decide)

/-! ## `Loader.Load` -/

/-- Claim C7. If the environment lacks `CONFIGMAP_NAMESPACE`, or has it and lacks
`CONFIGMAP_NAME`, `Load` returns no `Config` and the error "missing required environment
variable: " followed by the quoted name of that key (`CONFIGMAP_NAMESPACE` when both are
absent), issues no cluster read and leaves the cluster state untouched. If both keys are
present, with any values (the empty string included), `Load` is past both checks: its first
action is the config-map read at those values. -/
theorem Load_missing_environment_key {W P : Type} (parserPkg : ConfigMapParser P)
    (toUpper : String → String) (l : Loader W) (w : W) :
    (l.env.lookup "CONFIGMAP_NAMESPACE" = none →
      (l.Load parserPkg toUpper w).config = none
      ∧ (l.Load parserPkg toUpper w).err =
          some ⟨"missing required environment variable: \"CONFIGMAP_NAMESPACE\""⟩
      ∧ (l.Load parserPkg toUpper w).trace = []
      ∧ (l.Load parserPkg toUpper w).world = w)
    ∧ (l.env.lookup "CONFIGMAP_NAMESPACE" ≠ none → l.env.lookup "CONFIGMAP_NAME" = none →
      (l.Load parserPkg toUpper w).config = none
      ∧ (l.Load parserPkg toUpper w).err =
          some ⟨"missing required environment variable: \"CONFIGMAP_NAME\""⟩
      ∧ (l.Load parserPkg toUpper w).trace = []
      ∧ (l.Load parserPkg toUpper w).world = w)
    ∧ (∀ configMapNamespace configMapName,
      l.env.lookup "CONFIGMAP_NAMESPACE" = some configMapNamespace →
      l.env.lookup "CONFIGMAP_NAME" = some configMapName →
      (l.Load parserPkg toUpper w).trace.head? =
        some (.getData configMapNamespace configMapName)) := by
  unfold Loader.Load
  simp only [ConfigMapNamespaceEnvVarName, ConfigMapNameEnvVarName]
  repeat' split
  all_goals simp_all [errorfQuoted, quoted, -List.lookup_eq_none_iff]

/-- Witness for C7: an environment without `CONFIGMAP_NAMESPACE`, one without
`CONFIGMAP_NAME`, and one that holds both keys with empty values. -/
theorem Load_missing_environment_key_witness :
    ((NewLoader (sampleKubeClient []) [("CONFIGMAP_NAME", "checkup-config")]).Load
        sampleParser asciiToUpper 0).err =
      some ⟨"missing required environment variable: \"CONFIGMAP_NAMESPACE\""⟩
    ∧ ((NewLoader (sampleKubeClient []) [("CONFIGMAP_NAMESPACE", "kiagnose")]).Load
        sampleParser asciiToUpper 0).trace = []
    ∧ ((NewLoader (sampleKubeClient []) [("CONFIGMAP_NAMESPACE", ""), ("CONFIGMAP_NAME", "")]).Load
        sampleParser asciiToUpper 0).trace.head? = some (.getData "" "") :=
  ⟨((Load_missing_environment_key sampleParser asciiToUpper
      (NewLoader (sampleKubeClient []) [("CONFIGMAP_NAME", "checkup-config")]) 0).1 rfl).2.1,
    ((Load_missing_environment_key sampleParser asciiToUpper
      (NewLoader (sampleKubeClient []) [("CONFIGMAP_NAMESPACE", "kiagnose")]) 0).2.1
        (by decide) rfl).2.2.1,
    (Load_missing_environment_key sampleParser asciiToUpper
      (NewLoader (sampleKubeClient []) [("CONFIGMAP_NAMESPACE", ""), ("CONFIGMAP_NAME", "")]) 0).2.2
        "" "" rfl rfl⟩

/-- Claim C8. With both environment keys present, if the config-map read fails, or it
succeeds and the parse fails, or both succeed and the cluster-role lookup fails, or all three
succeed and the role lookup fails, each with error `e`, then `Load` returns a nil `Config`
together with that very error `e`. -/
theorem Load_returns_collaborator_error_unchanged {W P : Type} (parserPkg : ConfigMapParser P)
    (toUpper : String → String) (l : Loader W) (w : W)
    (configMapNamespace configMapName : String) (e : GoError)
    (hns : l.env.lookup "CONFIGMAP_NAMESPACE" = some configMapNamespace)
    (hname : l.env.lookup "CONFIGMAP_NAME" = some configMapName)
    (hfail :
      (∃ rawData w1,
        l.client.getData configMapNamespace configMapName w = ((rawData, some e), w1))
      ∨ (∃ rawData w1 p,
        l.client.getData configMapNamespace configMapName w = ((rawData, none), w1)
        ∧ parserPkg.Parse (parserPkg.newConfigMapParser rawData) = (p, some e))
      ∨ (∃ rawData w1 p clusterRoles w2,
        l.client.getData configMapNamespace configMapName w = ((rawData, none), w1)
        ∧ parserPkg.Parse (parserPkg.newConfigMapParser rawData) = (p, none)
        ∧ l.client.getClusterRoles (parserPkg.ClusterRoleNames p) w1 =
            ((clusterRoles, some e), w2))
      ∨ (∃ rawData w1 p clusterRoles w2 roles w3,
        l.client.getData configMapNamespace configMapName w = ((rawData, none), w1)
        ∧ parserPkg.Parse (parserPkg.newConfigMapParser rawData) = (p, none)
        ∧ l.client.getClusterRoles (parserPkg.ClusterRoleNames p) w1 =
            ((clusterRoles, none), w2)
        ∧ l.client.getRoles (parserPkg.RoleNames p) w2 = ((roles, some e), w3))) :
    (l.Load parserPkg toUpper w).config = none
    ∧ (l.Load parserPkg toUpper w).err = some e := by
  unfold Loader.Load
  simp only [ConfigMapNamespaceEnvVarName, ConfigMapNameEnvVarName, hns, hname]
  rcases hfail with ⟨rawData, w1, h1⟩ | ⟨rawData, w1, p, h1, h2⟩ |
    ⟨rawData, w1, p, clusterRoles, w2, h1, h2, h3⟩ |
    ⟨rawData, w1, p, clusterRoles, w2, roles, w3, h1, h2, h3, h4⟩
  · rw [h1]; exact ⟨rfl, rfl⟩
  · rw [h1]; dsimp only; rw [h2]; exact ⟨rfl, rfl⟩
  · rw [h1]; dsimp only; rw [h2]; dsimp only; rw [h3]; exact ⟨rfl, rfl⟩
  · rw [h1]; dsimp only; rw [h2]; dsimp only; rw [h3]; dsimp only; rw [h4]; exact ⟨rfl, rfl⟩

/-- Witness for C8: the config map names a role that does not exist; the role lookup's
error comes back as it is, with no `Config`. -/
theorem Load_returns_collaborator_error_unchanged_witness :
    ((NewLoader (sampleKubeClient [("spec.image", "img:v1"), ("spec.roles", "absent")])
        [("CONFIGMAP_NAMESPACE", "kiagnose"), ("CONFIGMAP_NAME", "checkup-config")]).Load
        sampleParser asciiToUpper 0).config = none
    ∧ ((NewLoader (sampleKubeClient [("spec.image", "img:v1"), ("spec.roles", "absent")])
        [("CONFIGMAP_NAMESPACE", "kiagnose"), ("CONFIGMAP_NAME", "checkup-config")]).Load
        sampleParser asciiToUpper 0).err = some ⟨"role \"absent\" not found"⟩ :=
  Load_returns_collaborator_error_unchanged sampleParser asciiToUpper
    (NewLoader (sampleKubeClient [("spec.image", "img:v1"), ("spec.roles", "absent")])
      [("CONFIGMAP_NAMESPACE", "kiagnose"), ("CONFIGMAP_NAME", "checkup-config")]) 0
    "kiagnose" "checkup-config" ⟨"role \"absent\" not found"⟩ rfl rfl
    (Or.inr (Or.inr (Or.inr
      ⟨[("spec.image", "img:v1"), ("spec.roles", "absent")], 1,
        [("spec.image", "img:v1"), ("spec.roles", "absent")], [], 2, [], 3,
        rfl, rfl, rfl, rfl⟩)))

/-- Claim C9. Whenever `Load` returns no error, both environment keys were present, the
config-map read, the parse and the two lookups all succeeded, and the returned `Config` holds
exactly the list the cluster-role lookup returned for the parser's cluster-role names, exactly
the list the role lookup returned for the parser's role names, and the parser's image and
timeout (its environment entries are `paramsToEnvVars` of the parser's parameters). -/
theorem Load_success_returns_resolved_lists {W P : Type} (parserPkg : ConfigMapParser P)
    (toUpper : String → String) (l : Loader W) (w : W)
    (h : (l.Load parserPkg toUpper w).err = none) :
    ∃ configMapNamespace configMapName rawData w1 p clusterRoles w2 roles w3,
      l.env.lookup "CONFIGMAP_NAMESPACE" = some configMapNamespace
      ∧ l.env.lookup "CONFIGMAP_NAME" = some configMapName
      ∧ l.client.getData configMapNamespace configMapName w = ((rawData, none), w1)
      ∧ parserPkg.Parse (parserPkg.newConfigMapParser rawData) = (p, none)
      ∧ l.client.getClusterRoles (parserPkg.ClusterRoleNames p) w1 = ((clusterRoles, none), w2)
      ∧ l.client.getRoles (parserPkg.RoleNames p) w2 = ((roles, none), w3)
      ∧ (l.Load parserPkg toUpper w).config = some
          { Image := parserPkg.Image p
            Timeout := parserPkg.Timeout p
            EnvVars := paramsToEnvVars toUpper (parserPkg.Params p)
            ClusterRoles := clusterRoles
            Roles := roles } := by
  revert h
  unfold Loader.Load
  simp only [ConfigMapNamespaceEnvVarName, ConfigMapNameEnvVarName]
  repeat' split
  all_goals simp_all [-List.lookup_eq_none_iff]
  rename_i rawData w1 _ _ p hparse _ clusterRoles w2 hclusterRoles _ roles w3 hroles
  exact ⟨rawData, w1, ⟨rfl, rfl⟩, p, hparse, clusterRoles, w2, hclusterRoles, roles,
    ⟨w3, hroles⟩, rfl, rfl, rfl, rfl, rfl⟩

/-- Witness for C9: a config map naming one cluster role and one role, both of which exist. -/
theorem Load_success_returns_resolved_lists_witness :
    ∃ configMapNamespace configMapName rawData w1 p clusterRoles w2 roles w3,
      (NewLoader (sampleKubeClient [("spec.image", "img:v1"), ("spec.clusterRoles", "viewer"),
          ("spec.roles", "editor"), ("foo", "bar")])
        [("CONFIGMAP_NAMESPACE", "kiagnose"), ("CONFIGMAP_NAME", "checkup-config")]).env.lookup
          "CONFIGMAP_NAMESPACE" = some configMapNamespace
      ∧ (NewLoader (sampleKubeClient [("spec.image", "img:v1"), ("spec.clusterRoles", "viewer"),
          ("spec.roles", "editor"), ("foo", "bar")])
        [("CONFIGMAP_NAMESPACE", "kiagnose"), ("CONFIGMAP_NAME", "checkup-config")]).env.lookup
          "CONFIGMAP_NAME" = some configMapName
      ∧ (NewLoader (sampleKubeClient [("spec.image", "img:v1"), ("spec.clusterRoles", "viewer"),
          ("spec.roles", "editor"), ("foo", "bar")])
        [("CONFIGMAP_NAMESPACE", "kiagnose"), ("CONFIGMAP_NAME", "checkup-config")]).client.getData
          configMapNamespace configMapName 0 = ((rawData, none), w1)
      ∧ sampleParser.Parse (sampleParser.newConfigMapParser rawData) = (p, none)
      ∧ (NewLoader (sampleKubeClient [("spec.image", "img:v1"), ("spec.clusterRoles", "viewer"),
          ("spec.roles", "editor"), ("foo", "bar")])
        [("CONFIGMAP_NAMESPACE", "kiagnose"),
          ("CONFIGMAP_NAME", "checkup-config")]).client.getClusterRoles
          (sampleParser.ClusterRoleNames p) w1 = ((clusterRoles, none), w2)
      ∧ (NewLoader (sampleKubeClient [("spec.image", "img:v1"), ("spec.clusterRoles", "viewer"),
          ("spec.roles", "editor"), ("foo", "bar")])
        [("CONFIGMAP_NAMESPACE", "kiagnose"), ("CONFIGMAP_NAME", "checkup-config")]).client.getRoles
          (sampleParser.RoleNames p) w2 = ((roles, none), w3)
      ∧ ((NewLoader (sampleKubeClient [("spec.image", "img:v1"), ("spec.clusterRoles", "viewer"),
          ("spec.roles", "editor"), ("foo", "bar")])
        [("CONFIGMAP_NAMESPACE", "kiagnose"), ("CONFIGMAP_NAME", "checkup-config")]).Load
          sampleParser asciiToUpper 0).config = some
          { Image := sampleParser.Image p
            Timeout := sampleParser.Timeout p
            EnvVars := paramsToEnvVars asciiToUpper (sampleParser.Params p)
            ClusterRoles := clusterRoles
            Roles := roles } :=
  Load_success_returns_resolved_lists sampleParser asciiToUpper
    (NewLoader (sampleKubeClient [("spec.image", "img:v1"), ("spec.clusterRoles", "viewer"),
        ("spec.roles", "editor"), ("foo", "bar")])
      [("CONFIGMAP_NAMESPACE", "kiagnose"), ("CONFIGMAP_NAME", "checkup-config")]) 0 rfl

/-! ## Resource specs held by `New` -/

/-- Claim C10. For every name, namespace and config-map name, the role built by
`NewConfigMapWriterRole` has exactly one rule: verbs `get`, `update`, `patch`, the core API
group `""`, resource `configmaps`, and the given config-map name as its only resource name.
For every client and `Config`, the roles held by `New` are exactly that one role, named
"results-configmap-writer", built for the config map "checkup-results" in namespace
"checkup-workspace". -/
theorem New_holds_only_the_results_writer_role {W : Type} (c : Client W) (checkupConfig : Config)
    (name namespaceName configMapName : String) :
    (NewConfigMapWriterRole name namespaceName configMapName).Rules =
        [{ Verbs := ["get", "update", "patch"]
           APIGroups := [""]
           Resources := ["configmaps"]
           ResourceNames := [configMapName]
           NonResourceURLs := [] }]
    ∧ (NewConfigMapWriterRole name namespaceName configMapName).ObjectMeta =
        { Name := name, Namespace := namespaceName }
    ∧ (New c checkupConfig).roles =
        [NewConfigMapWriterRole "results-configmap-writer" "checkup-workspace" "checkup-results"] :=
  ⟨rfl, rfl, rfl⟩

/-- A loop that appends one element per item builds the mapped list after what it started
from. -/
theorem foldl_append_singleton {α β : Type} (f : α → β) (l : List α) (acc : List β) :
    l.foldl (fun acc a => acc ++ [f a]) acc = acc ++ l.map f := by
  induction l generalizing acc with
  | nil => simp
  | cons a rest ih => simp [ih]

/-- The bindings built by `NewClusterRoleBindings`, as a map over the cluster roles. -/
theorem NewClusterRoleBindings_eq_map (clusterRoles : List ClusterRole)
    (serviceAccountName serviceAccountNs : String) :
    NewClusterRoleBindings clusterRoles serviceAccountName serviceAccountNs =
      clusterRoles.map (fun clusterRole =>
        newClusterRoleBinding clusterRole.ObjectMeta.Name
          (newServiceAccountSubject serviceAccountName serviceAccountNs)) := by
  unfold NewClusterRoleBindings
  simpa using foldl_append_singleton
    (fun clusterRole : ClusterRole =>
      newClusterRoleBinding clusterRole.ObjectMeta.Name
        (newServiceAccountSubject serviceAccountName serviceAccountNs))
    clusterRoles []

/-- Claim C11. For every client and `Config`, the job built by `New` has one container whose
environment is `RESULT_CONFIGMAP_NAME` = "checkup-results", then
`RESULT_CONFIGMAP_NAMESPACE` = "checkup-workspace", then the `Config`'s `EnvVars` in their
order: the first two entries are the fixed ones and dropping them leaves `EnvVars`. -/
theorem New_job_env_starts_with_result_sink {W : Type} (c : Client W) (checkupConfig : Config) :
    ((New c checkupConfig).job.map (fun job =>
        job.Spec.Template.Spec.Containers.map (fun container => container.Env))) =
      some [[{ Name := "RESULT_CONFIGMAP_NAME", Value := "checkup-results" },
             { Name := "RESULT_CONFIGMAP_NAMESPACE", Value := "checkup-workspace" }]
            ++ checkupConfig.EnvVars]
    ∧ ((New c checkupConfig).job.map (fun job =>
        job.Spec.Template.Spec.Containers.map (fun container => container.Env.take 2))) =
      some [[{ Name := "RESULT_CONFIGMAP_NAME", Value := "checkup-results" },
             { Name := "RESULT_CONFIGMAP_NAMESPACE", Value := "checkup-workspace" }]]
    ∧ ((New c checkupConfig).job.map (fun job =>
        job.Spec.Template.Spec.Containers.map (fun container => container.Env.drop 2))) =
      some [checkupConfig.EnvVars] :=
  ⟨rfl, rfl, rfl⟩

/-- Claim C13. For every client and `Config`, the job built by `New` has exactly one
container, named "checkup", whose image is the `Config`'s image; its backoff limit is 0, its
pod restart policy is "Never", its termination grace period is 5 seconds, it runs under the
service account "checkup-sa", and it is the job "checkup-job" of namespace
"checkup-workspace". -/
theorem New_job_single_container_no_retry {W : Type} (c : Client W) (checkupConfig : Config) :
    ∃ job container,
      (New c checkupConfig).job = some job
      ∧ job.Spec.Template.Spec.Containers = [container]
      ∧ container.Image = checkupConfig.Image
      ∧ container.Name = "checkup"
      ∧ job.Spec.BackoffLimit = some 0
      ∧ job.Spec.Template.Spec.RestartPolicy = "Never"
      ∧ job.Spec.Template.Spec.TerminationGracePeriodSeconds = some 5
      ∧ job.Spec.Template.Spec.ServiceAccountName = "checkup-sa"
      ∧ job.ObjectMeta = { Name := "checkup-job", Namespace := "checkup-workspace" } :=
  ⟨_, _, rfl, rfl, rfl, rfl, rfl, rfl, rfl, rfl, rfl⟩

/-- Claim C16. For every client and `Config`, `New` holds at least one role binding, and
every role binding it holds has a role reference of kind "Role" that names a role held by the
same checkup in the binding's own namespace, and has as its only subject the service account
"checkup-sa" of namespace "checkup-workspace". -/
theorem New_role_bindings_reference_held_roles {W : Type} (c : Client W)
    (checkupConfig : Config) :
    (New c checkupConfig).roleBindings ≠ []
    ∧ ∀ roleBinding ∈ (New c checkupConfig).roleBindings,
        roleBinding.RoleRef.Kind = "Role"
        ∧ (∃ role ∈ (New c checkupConfig).roles,
            role.ObjectMeta.Name = roleBinding.RoleRef.Name
            ∧ role.ObjectMeta.Namespace = roleBinding.ObjectMeta.Namespace)
        ∧ roleBinding.Subjects =
            [{ Kind := "ServiceAccount", Name := "checkup-sa", Namespace := "checkup-workspace" }] := by
  have hbindings : (New c checkupConfig).roleBindings =
      [NewRoleBinding ResultsConfigMapWriterRoleName NamespaceName
        (newServiceAccountSubject ServiceAccountName NamespaceName)] := rfl
  have hroles : (New c checkupConfig).roles =
      [NewConfigMapWriterRole ResultsConfigMapWriterRoleName NamespaceName
        ResultsConfigMapName] := rfl
  rw [hbindings, hroles]
  refine ⟨by simp, ?_⟩
  intro roleBinding hmem
  rw [List.mem_singleton] at hmem
  subst hmem
  exact ⟨rfl, ⟨_, List.mem_singleton.mpr rfl, rfl, rfl⟩, rfl⟩

/-- Claim C17. For every list of cluster roles, service-account name and namespace,
`NewClusterRoleBindings` returns, in the same order, one binding per cluster role: it is named
after that cluster role, its role reference has kind "ClusterRole" and names that cluster
role, and its only subject is the given service account in the given namespace. Hence the
cluster-role bindings held by `New` are as many as the `Config`'s cluster roles, each
references one of them, and each of them is referenced by one. -/
theorem NewClusterRoleBindings_one_per_cluster_role {W : Type} (c : Client W)
    (checkupConfig : Config) (clusterRoles : List ClusterRole)
    (serviceAccountName serviceAccountNs : String) :
    NewClusterRoleBindings clusterRoles serviceAccountName serviceAccountNs =
        clusterRoles.map (fun clusterRole =>
          { TypeMeta := { Kind := "ClusterRoleBinding", APIVersion := "rbac.authorization.k8s.io" }
            ObjectMeta := { Name := clusterRole.ObjectMeta.Name }
            Subjects :=
              [{ Kind := "ServiceAccount"
                 Name := serviceAccountName
                 Namespace := serviceAccountNs }]
            RoleRef :=
              { Kind := "ClusterRole"
                APIGroup := "rbac.authorization.k8s.io"
                Name := clusterRole.ObjectMeta.Name } })
    ∧ (NewClusterRoleBindings clusterRoles serviceAccountName serviceAccountNs).length =
        clusterRoles.length
    ∧ (New c checkupConfig).clusterRoleBindings =
        NewClusterRoleBindings checkupConfig.ClusterRoles "checkup-sa" "checkup-workspace"
    ∧ (∀ binding ∈ (New c checkupConfig).clusterRoleBindings,
        binding.RoleRef.Kind = "ClusterRole"
        ∧ ∃ clusterRole ∈ checkupConfig.ClusterRoles,
            binding.RoleRef.Name = clusterRole.ObjectMeta.Name)
    ∧ (∀ clusterRole ∈ checkupConfig.ClusterRoles,
        ∃ binding ∈ (New c checkupConfig).clusterRoleBindings,
          binding.RoleRef.Kind = "ClusterRole"
          ∧ binding.RoleRef.Name = clusterRole.ObjectMeta.Name) := by
  have hnew : (New c checkupConfig).clusterRoleBindings =
      NewClusterRoleBindings checkupConfig.ClusterRoles ServiceAccountName NamespaceName := rfl
  refine ⟨?_, ?_, hnew, ?_, ?_⟩
  · rw [NewClusterRoleBindings_eq_map]; rfl
  · rw [NewClusterRoleBindings_eq_map, List.length_map]
  · intro binding hmem
    rw [hnew, NewClusterRoleBindings_eq_map, List.mem_map] at hmem
    obtain ⟨clusterRole, hrole, rfl⟩ := hmem
    exact ⟨rfl, clusterRole, hrole, rfl⟩
  · intro clusterRole hrole
    refine ⟨newClusterRoleBinding clusterRole.ObjectMeta.Name
      (newServiceAccountSubject ServiceAccountName NamespaceName), ?_, rfl, rfl⟩
    rw [hnew, NewClusterRoleBindings_eq_map, List.mem_map]
    exact ⟨clusterRole, hrole, rfl⟩

/-- Witness for C17: a `Config` with two cluster roles; the bindings held by `New` follow
their order. -/
theorem NewClusterRoleBindings_one_per_cluster_role_witness :
    ((New (sampleClient 6 false)
        { ClusterRoles := [{ ObjectMeta := { Name := "viewer" } },
                           { ObjectMeta := { Name := "auditor" } }] }).clusterRoleBindings.map
      (fun binding => (binding.ObjectMeta.Name, binding.RoleRef.Kind, binding.RoleRef.Name))) =
      [("viewer", "ClusterRole", "viewer"), ("auditor", "ClusterRole", "auditor")]
    ∧ ∃ binding ∈ (New (sampleClient 6 false)
        { ClusterRoles := [{ ObjectMeta := { Name := "viewer" } },
                           { ObjectMeta := { Name := "auditor" } }] }).clusterRoleBindings,
        binding.RoleRef.Kind = "ClusterRole" ∧ binding.RoleRef.Name = "auditor" :=
  ⟨rfl,
    (NewClusterRoleBindings_one_per_cluster_role (sampleClient 6 false)
      { ClusterRoles := [{ ObjectMeta := { Name := "viewer" } },
                         { ObjectMeta := { Name := "auditor" } }] } [] "" "").2.2.2.2
      { ObjectMeta := { Name := "auditor" } } (by simp)⟩

/-- Claim C20. `New` does not read the `Config`'s `Roles`: replacing them by any other list
leaves the whole checkup, all resource specs included, as it was. It always holds exactly one
role, the results-writer role, and exactly one role binding, the one that binds that role to
the service account "checkup-sa"; so no role binding refers to a role of the `Config` that
has another name. -/
theorem New_ignores_config_roles {W : Type} (c : Client W) (checkupConfig : Config)
    (roles : List Role) :
    New c { checkupConfig with Roles := roles } = New c checkupConfig
    ∧ (New c checkupConfig).roles =
        [NewConfigMapWriterRole "results-configmap-writer" "checkup-workspace" "checkup-results"]
    ∧ (New c checkupConfig).roleBindings =
        [NewRoleBinding "results-configmap-writer" "checkup-workspace"
          (newServiceAccountSubject "checkup-sa" "checkup-workspace")]
    ∧ (∀ role ∈ checkupConfig.Roles, role.ObjectMeta.Name ≠ "results-configmap-writer" →
        ∀ roleBinding ∈ (New c checkupConfig).roleBindings,
          roleBinding.RoleRef.Name ≠ role.ObjectMeta.Name) := by
  refine ⟨rfl, rfl, rfl, ?_⟩
  intro role _ hname roleBinding hmem
  have hbindings : (New c checkupConfig).roleBindings =
      [NewRoleBinding ResultsConfigMapWriterRoleName NamespaceName
        (newServiceAccountSubject ServiceAccountName NamespaceName)] := rfl
  rw [hbindings, List.mem_singleton] at hmem
  subst hmem
  exact fun h => hname h.symm

/-- Witness for C20: a `Config` that carries a resolved role "editor"; the single role
binding held by `New` refers to the results-writer role, not to it. -/
theorem New_ignores_config_roles_witness :
    ∀ roleBinding ∈ (New (sampleClient 6 false)
        { Roles := [{ ObjectMeta := { Name := "editor" } }] }).roleBindings,
      roleBinding.RoleRef.Name ≠ "editor" :=
  (New_ignores_config_roles (sampleClient 6 false)
    { Roles := [{ ObjectMeta := { Name := "editor" } }] } []).2.2.2
    { ObjectMeta := { Name := "editor" } } (by simp) (by decide)

/-- Witness for C16: the role binding that `New` builds for the results-writer role. -/
theorem New_role_bindings_reference_held_roles_witness :
    (NewRoleBinding "results-configmap-writer" "checkup-workspace"
        (newServiceAccountSubject "checkup-sa" "checkup-workspace")).RoleRef.Kind = "Role"
    ∧ (∃ role ∈ (New (sampleClient 6 false) {}).roles,
        role.ObjectMeta.Name = "results-configmap-writer"
        ∧ role.ObjectMeta.Namespace = "checkup-workspace")
    ∧ (NewRoleBinding "results-configmap-writer" "checkup-workspace"
        (newServiceAccountSubject "checkup-sa" "checkup-workspace")).Subjects =
          [{ Kind := "ServiceAccount", Name := "checkup-sa", Namespace := "checkup-workspace" }] :=
  (New_role_bindings_reference_held_roles (sampleClient 6 false) {}).2
    (NewRoleBinding "results-configmap-writer" "checkup-workspace"
      (newServiceAccountSubject "checkup-sa" "checkup-workspace"))
    (List.mem_singleton.mpr rfl)

/-! ## `paramsToEnvVars` -/

/-- The entries built by `paramsToEnvVars`, as a map over the entries of the parameter map
in iteration order. -/
theorem paramsToEnvVars_eq_map (toUpper : String → String) (params : GoMap) :
    paramsToEnvVars toUpper params =
      params.map (fun kv => { Name := toUpper kv.1, Value := kv.2 }) := by
  unfold paramsToEnvVars
  simpa using foldl_append_singleton
    (fun kv : String × String => ({ Name := toUpper kv.1, Value := kv.2 } : EnvVar)) params []

/-- Claim C14. For every parameter map, visited in any order, `paramsToEnvVars` returns one
entry per map entry: the entry of `(key, value)` is `(toUpper key, value)`, in visiting
order, so there are as many entries as keys; and whatever the visiting order of the same
map, the result is a permutation of those entries. -/
theorem paramsToEnvVars_one_entry_per_key (toUpper : String → String) (params : GoMap) :
    paramsToEnvVars toUpper params =
        params.map (fun kv => { Name := toUpper kv.1, Value := kv.2 })
    ∧ (paramsToEnvVars toUpper params).length = (params.map (fun kv => kv.1)).length
    ∧ ∀ visited : GoMap, visited.Perm params →
        (paramsToEnvVars toUpper visited).Perm
          (params.map (fun kv => { Name := toUpper kv.1, Value := kv.2 })) := by
  refine ⟨paramsToEnvVars_eq_map toUpper params, ?_, ?_⟩
  · rw [paramsToEnvVars_eq_map, List.length_map, List.length_map]
  · intro visited hperm
    rw [paramsToEnvVars_eq_map]
    exact hperm.map _

/-- Witness for C14: a two-entry map visited in the other order. -/
theorem paramsToEnvVars_one_entry_per_key_witness :
    (paramsToEnvVars asciiToUpper [("retries", "3"), ("foo", "bar")]).Perm
      ([("foo", "bar"), ("retries", "3")].map
        (fun kv => { Name := asciiToUpper kv.1, Value := kv.2 })) :=
  (paramsToEnvVars_one_entry_per_key asciiToUpper [("foo", "bar"), ("retries", "3")]).2.2
    [("retries", "3"), ("foo", "bar")] (List.Perm.swap _ _ _)

/-- Counterexample to C15: the keys "foo" and "FOO" are distinct, yet both entries built
from them are named "FOO"; the same two names are in the `Config` that `Load` returns for a
config map that holds these two parameters. -/
theorem paramsToEnvVars_case_collision_duplicates_name :
    ([("foo", "1"), ("FOO", "2")].map (fun kv : String × String => kv.1)).Nodup
    ∧ (paramsToEnvVars asciiToUpper [("foo", "1"), ("FOO", "2")]).map (fun entry => entry.Name) =
        ["FOO", "FOO"]
    ∧ ¬ ((paramsToEnvVars asciiToUpper [("foo", "1"), ("FOO", "2")]).map
        (fun entry => entry.Name)).Nodup
    ∧ ((NewLoader (sampleKubeClient [("spec.image", "img:v1"), ("foo", "1"), ("FOO", "2")])
        [("CONFIGMAP_NAMESPACE", "kiagnose"), ("CONFIGMAP_NAME", "checkup-config")]).Load
        sampleParser asciiToUpper 0).config.map
          (fun cfg => cfg.EnvVars.map (fun entry => entry.Name)) = some ["FOO", "FOO"] := by
  decide

/-- Claim C15, amended. For every parameter map (its keys are distinct) in which no two keys
have the same upper-case form, no two entries returned by `paramsToEnvVars` share a name. -/
theorem paramsToEnvVars_names_unique_without_collision (toUpper : String → String)
    (params : GoMap) (hkeys : (params.map (fun kv => kv.1)).Nodup)
    (hcollision : ∀ k1 ∈ params.map (fun kv => kv.1), ∀ k2 ∈ params.map (fun kv => kv.1),
      toUpper k1 = toUpper k2 → k1 = k2) :
    ((paramsToEnvVars toUpper params).map (fun entry => entry.Name)).Nodup := by
  rw [paramsToEnvVars_eq_map, List.map_map]
  have hnames : ((fun entry : EnvVar => entry.Name) ∘
      fun kv : String × String => ({ Name := toUpper kv.1, Value := kv.2 } : EnvVar)) =
      toUpper ∘ fun kv => kv.1 := rfl
  rw [hnames, ← List.map_map]
  exact List.Nodup.map_on (fun k1 h1 k2 h2 h => hcollision k1 h1 k2 h2 h) hkeys

/-- Witness for C15 (amended): two keys with different upper-case forms. -/
theorem paramsToEnvVars_names_unique_without_collision_witness :
    ((paramsToEnvVars asciiToUpper [("foo", "1"), ("bar", "2")]).map
      (fun entry => entry.Name)).Nodup :=
  paramsToEnvVars_names_unique_without_collision asciiToUpper [("foo", "1"), ("bar", "2")]
    (by decide) (by decide)

/-! ## The teardown timeout and the frame of `Setup` -/

/-- Every namespace delete-and-wait that `Setup` issues carries the checkup's teardown
timeout. -/
theorem Setup_deleteAndWait_timeout {W : Type} (c : Checkup W) (w : W)
    (name : String) (timeout : Duration) (derr : Option GoError)
    (h : (⟨.namespaceDeleteAndWait name timeout, derr⟩ : Event) ∈ (c.Setup w).trace) :
    timeout = c.teardownTimeout := by
  revert h
  unfold Checkup.Setup Checkup.setupDeferred
  simp only []
  repeat' split
  all_goals simp
  all_goals (intro _ h _; exact h)

/-- Every namespace delete-and-wait that `Teardown` issues carries the checkup's teardown
timeout. -/
theorem Teardown_deleteAndWait_timeout {W : Type} (c : Checkup W) (w : W)
    (name : String) (timeout : Duration) (derr : Option GoError)
    (h : (⟨.namespaceDeleteAndWait name timeout, derr⟩ : Event) ∈ (c.Teardown w).trace) :
    timeout = c.teardownTimeout := by
  revert h
  unfold Checkup.Teardown
  simp only []
  repeat' split
  all_goals simp
  all_goals (intro _ h _; exact h)

/-- Claim C18. A checkup built by `New` has a teardown timeout of five minutes.
`SetTeardownTimeout d` sets the teardown timeout to `d` and leaves the client and every
resource field as they were. In a `Teardown` or a `Setup` performed afterwards, every
namespace delete-and-wait call (the rollback of `Setup` included) is passed exactly `d`. -/
theorem SetTeardownTimeout_changes_only_the_timeout {W : Type} (client : Client W)
    (checkupConfig : Config) (c : Checkup W) (d : Duration) (w : W) :
    (New client checkupConfig).teardownTimeout = 5 * Minute
    ∧ (New client checkupConfig).teardownTimeout = 300000000000
    ∧ c.SetTeardownTimeout d = { c with teardownTimeout := d }
    ∧ (c.SetTeardownTimeout d).teardownTimeout = d
    ∧ (c.SetTeardownTimeout d).namespace_ = c.namespace_
    ∧ (c.SetTeardownTimeout d).serviceAccount = c.serviceAccount
    ∧ (c.SetTeardownTimeout d).resultConfigMap = c.resultConfigMap
    ∧ (c.SetTeardownTimeout d).roles = c.roles
    ∧ (c.SetTeardownTimeout d).roleBindings = c.roleBindings
    ∧ (c.SetTeardownTimeout d).clusterRoleBindings = c.clusterRoleBindings
    ∧ (c.SetTeardownTimeout d).job = c.job
    ∧ (∀ name timeout derr,
        (⟨.namespaceDeleteAndWait name timeout, derr⟩ : Event) ∈
          ((c.SetTeardownTimeout d).Teardown w).trace → timeout = d)
    ∧ (∀ name timeout derr,
        (⟨.namespaceDeleteAndWait name timeout, derr⟩ : Event) ∈
          ((c.SetTeardownTimeout d).Setup w).trace → timeout = d) :=
  ⟨by show Minute * 5 = 5 * Minute; decide, by show Minute * 5 = 300000000000; decide,
    rfl, rfl, rfl, rfl, rfl, rfl, rfl, rfl, rfl,
    fun name timeout derr h =>
      Teardown_deleteAndWait_timeout (c.SetTeardownTimeout d) w name timeout derr h,
    fun name timeout derr h =>
      Setup_deleteAndWait_timeout (c.SetTeardownTimeout d) w name timeout derr h⟩

/-- Witness for C18: with the timeout set to seven seconds, the delete-and-wait of a
teardown and the rollback of a failing setup really are issued, and carry seven seconds. -/
theorem SetTeardownTimeout_changes_only_the_timeout_witness :
    (⟨.namespaceDeleteAndWait "checkup-workspace" (7 * Second), none⟩ : Event) ∈
        (((New (sampleClient 6 false) {}).SetTeardownTimeout (7 * Second)).Teardown 0).trace
    ∧ (⟨.namespaceDeleteAndWait "checkup-workspace" (7 * Second), none⟩ : Event) ∈
        (((New (sampleClient 3 false) {}).SetTeardownTimeout (7 * Second)).Setup 0).trace
    ∧ (7 * Second : Duration) = 7 * Second :=
  ⟨by decide, by decide,
    (SetTeardownTimeout_changes_only_the_timeout (sampleClient 3 false) {}
      (New (sampleClient 3 false) {}) (7 * Second) 0).2.2.2.2.2.2.2.2.2.2.2.2
      "checkup-workspace" (7 * Second) none (by decide)⟩

/-- Claim C19. `Setup` never changes the job or the teardown timeout. When it returns `nil`,
all six create calls succeeded, each in the cluster state its predecessor left, and each of
the six resource fields holds the value its create call returned, every other field being as
before. And a field whose create call was not issued (a step after the failing one) still
holds its value from before the call. -/
theorem Setup_changes_only_fields_of_executed_steps {W : Type} (c : Checkup W) (w : W) :
    (c.Setup w).checkup.job = c.job
    ∧ (c.Setup w).checkup.teardownTimeout = c.teardownTimeout
    ∧ ((c.Setup w).outcome = .returned none →
        ∃ ns w1 sa w2 cm w3 roles w4 roleBindings w5 clusterRoleBindings w6,
          c.client.namespaceCreate c.namespace_ w = ((ns, none), w1)
          ∧ c.client.createServiceAccount c.serviceAccount w1 = ((sa, none), w2)
          ∧ c.client.configmapCreate c.resultConfigMap w2 = ((cm, none), w3)
          ∧ c.client.createRoles c.roles w3 = ((roles, none), w4)
          ∧ c.client.createRoleBindings c.roleBindings w4 = ((roleBindings, none), w5)
          ∧ c.client.createClusterRoleBindings c.clusterRoleBindings c.teardownTimeout w5 =
              ((clusterRoleBindings, none), w6)
          ∧ (c.Setup w).checkup =
              { c with
                namespace_ := ns
                serviceAccount := sa
                resultConfigMap := cm
                roles := roles
                roleBindings := roleBindings
                clusterRoleBindings := clusterRoleBindings })
    ∧ ((∀ ev ∈ (c.Setup w).trace, ev.call.createStep ≠ some .serviceAccount) →
        (c.Setup w).checkup.serviceAccount = c.serviceAccount)
    ∧ ((∀ ev ∈ (c.Setup w).trace, ev.call.createStep ≠ some .resultConfigMap) →
        (c.Setup w).checkup.resultConfigMap = c.resultConfigMap)
    ∧ ((∀ ev ∈ (c.Setup w).trace, ev.call.createStep ≠ some .roles) →
        (c.Setup w).checkup.roles = c.roles)
    ∧ ((∀ ev ∈ (c.Setup w).trace, ev.call.createStep ≠ some .roleBindings) →
        (c.Setup w).checkup.roleBindings = c.roleBindings)
    ∧ ((∀ ev ∈ (c.Setup w).trace, ev.call.createStep ≠ some .clusterRoleBindings) →
        (c.Setup w).checkup.clusterRoleBindings = c.clusterRoleBindings) := by
  refine ⟨?_, ?_, ?_, ?_, ?_, ?_, ?_, ?_⟩
  case refine_3 =>
    unfold Checkup.Setup Checkup.setupDeferred
    simp only []
    repeat' split
    all_goals try (intro h; simp at h; done)
    rename_i h1 _ _ _ h2 _ _ _ h3 _ _ _ h4 _ _ _ h5 _ _ _ h6
    intro _
    exact ⟨_, _, _, _, _, _, _, _, _, _, _, _, h1, h2, h3, h4, h5, h6, rfl⟩
  all_goals
    unfold Checkup.Setup Checkup.setupDeferred
    simp only []
    repeat' split
    all_goals simp [Call.createStep]

/-- Witness for C19: config-map creation fails on the sample cluster, so the roles and the
cluster-role bindings, whose create calls were never issued, are as before, while the
failing step overwrote the config-map field with the nil it returned. -/
theorem Setup_changes_only_fields_of_executed_steps_witness :
    ((New (sampleClient 2 false) {}).Setup 0).checkup.roles = (New (sampleClient 2 false) {}).roles
    ∧ ((New (sampleClient 2 false) {}).Setup 0).checkup.clusterRoleBindings =
        (New (sampleClient 2 false) {}).clusterRoleBindings
    ∧ ((New (sampleClient 2 false) {}).Setup 0).checkup.resultConfigMap = none :=
  ⟨(Setup_changes_only_fields_of_executed_steps (New (sampleClient 2 false) {}) 0).2.2.2.2.2.1
      (by decide),
    (Setup_changes_only_fields_of_executed_steps (New (sampleClient 2 false) {}) 0).2.2.2.2.2.2.2
      (by decide),
    rfl⟩

/-! ## The job deadline: `int64(checkupConfig.Timeout.Seconds())` -/

theorem bitLenAux_zero (fuel : Nat) : bitLenAux fuel 0 = 0 := by
  cases fuel <;> simp [bitLenAux]

theorem lt_two_pow_bitLenAux (fuel n : Nat) (h : n ≤ fuel) : n < 2 ^ bitLenAux fuel n := by
  induction fuel generalizing n with
  | zero =>
    have : n = 0 := by omega
    subst this
    simp [bitLenAux]
  | succ fuel ih =>
    unfold bitLenAux
    split
    · omega
    · have h2 := ih (n / 2) (by omega)
      rw [Nat.pow_succ]
      omega

theorem two_pow_bitLenAux_le (fuel n : Nat) (h : n ≤ fuel) (hn : 0 < n) :
    2 ^ (bitLenAux fuel n - 1) ≤ n ∧ 1 ≤ bitLenAux fuel n := by
  induction fuel generalizing n with
  | zero => omega
  | succ fuel ih =>
    unfold bitLenAux
    rw [if_neg (by omega)]
    refine ⟨?_, by omega⟩
    simp only [Nat.add_sub_cancel]
    by_cases h2 : n / 2 = 0
    · rw [h2, bitLenAux_zero]; simpa using hn
    · obtain ⟨h3, h4⟩ := ih (n / 2) (by omega) (by omega)
      have h5 : 2 ^ bitLenAux fuel (n / 2) = 2 * 2 ^ (bitLenAux fuel (n / 2) - 1) := by
        rw [← Nat.pow_succ']
        congr 1
        omega
      omega

theorem lt_two_pow_bitLen (n : Nat) : n < 2 ^ bitLen n := lt_two_pow_bitLenAux n n (le_refl n)

theorem two_pow_bitLen_le (n : Nat) (hn : 0 < n) : 2 ^ (bitLen n - 1) ≤ n ∧ 1 ≤ bitLen n :=
  two_pow_bitLenAux_le n n (le_refl n) hn

theorem round_core (N D : Nat) (hD : 0 < D) :
    2 * ((if D < 2 * (N % D) ∨ (2 * (N % D) = D ∧ N / D % 2 = 1) then N / D + 1 else N / D) * D)
        ≤ 2 * N + D
    ∧ 2 * N ≤
        2 * ((if D < 2 * (N % D) ∨ (2 * (N % D) = D ∧ N / D % 2 = 1) then N / D + 1 else N / D) * D)
          + D
    ∧ (D ∣ N →
        (if D < 2 * (N % D) ∨ (2 * (N % D) = D ∧ N / D % 2 = 1) then N / D + 1 else N / D) * D
          = N) := by
  have hdm : D * (N / D) + N % D = N := Nat.div_add_mod N D
  have hr : N % D < D := Nat.mod_lt N hD
  have hcomm : N / D * D = D * (N / D) := Nat.mul_comm _ _
  refine ⟨?_, ?_, ?_⟩
  · split_ifs with h
    · rw [Nat.add_mul, hcomm]; omega
    · rw [hcomm]; omega
  · split_ifs with h
    · rw [Nat.add_mul, hcomm]; omega
    · rw [hcomm]; omega
  · intro hdvd
    have h0 : N % D = 0 := Nat.mod_eq_zero_of_dvd hdvd
    rw [if_neg (by omega), hcomm]
    omega

theorem roundPos_spec (n d : Nat) (hn : 0 < n) (hd : 0 < d) (hlt : n < 2 ^ 52 * d) :
    ∃ m K : Nat, 1 ≤ K ∧ Float64.roundPos n d = (m, -(K : Int))
      ∧ 2 ^ 52 * d ≤ n * 2 ^ K
      ∧ 2 * (m * d) ≤ 2 * (n * 2 ^ K) + d
      ∧ 2 * (n * 2 ^ K) ≤ 2 * (m * d) + d
      ∧ (d ∣ n * 2 ^ K → m * d = n * 2 ^ K) := by
  have hbn1 := lt_two_pow_bitLen n
  obtain ⟨hbn2, hbn3⟩ := two_pow_bitLen_le n hn
  have hbd1 := lt_two_pow_bitLen d
  obtain ⟨hbd2, hbd3⟩ := two_pow_bitLen_le d hd
  have hle : bitLen n ≤ bitLen d + 52 := by
    by_contra hcon
    have h1 : 2 ^ (bitLen d + 52) ≤ 2 ^ (bitLen n - 1) :=
      Nat.pow_le_pow_right (by norm_num) (by omega)
    have h2 : 2 ^ (bitLen d + 52) = 2 ^ 52 * 2 ^ bitLen d := by rw [Nat.pow_add, Nat.mul_comm]
    have h3 : 2 ^ 52 * d < 2 ^ 52 * 2 ^ bitLen d := Nat.mul_lt_mul_of_pos_left hbd1 (by norm_num)
    omega
  -- the first candidate exponent is `-j`
  obtain ⟨j, hj⟩ : ∃ j, j = bitLen d + 53 - bitLen n := ⟨_, rfl⟩
  have hj1 : 1 ≤ j := by omega
  have he0 : ((bitLen n : Int) - (bitLen d : Int) - 53) = -(j : Int) := by omega
  -- at exponent `-j` the scaled quotient is at least `2 ^ 52`
  have hlow : 2 ^ 52 * d < n * 2 ^ j := by
    have h1 : 2 ^ (bitLen n - 1) * 2 ^ j = 2 ^ 52 * 2 ^ bitLen d := by
      rw [← Nat.pow_add, ← Nat.pow_add]
      congr 1
      omega
    have h2 : 2 ^ (bitLen n - 1) * 2 ^ j ≤ n * 2 ^ j := Nat.mul_le_mul_right _ hbn2
    have h3 : 2 ^ 52 * d < 2 ^ 52 * 2 ^ bitLen d := Nat.mul_lt_mul_of_pos_left hbd1 (by norm_num)
    omega
  have hneg : ∀ K : Nat, 1 ≤ K → ¬ (0 ≤ -(K : Int)) := fun K hK => by omega
  have htoNat : ∀ K : Nat, (- -(K : Int)).toNat = K := fun K => by omega
  unfold Float64.roundPos
  simp only [he0, if_neg (hneg j hj1), htoNat]
  by_cases hq : n * 2 ^ j / d < 2 ^ 53
  · simp only [if_pos hq, if_neg (hneg j hj1), htoNat]
    exact ⟨_, j, hj1, rfl, le_of_lt hlow, round_core (n * 2 ^ j) d hd⟩
  · have hq2 : 2 ^ 53 * d ≤ n * 2 ^ j := by
      have h1 : 2 ^ 53 ≤ n * 2 ^ j / d := by omega
      exact (Nat.le_div_iff_mul_le hd).mp h1
    have hj2 : 2 ≤ j := by
      by_contra hcon
      have hj3 : j = 1 := by omega
      rw [hj3] at hq2
      omega
    have hpow : 2 ^ j = 2 * 2 ^ (j - 1) := by
      rw [← Nat.pow_succ']
      congr 1
      omega
    have he1 : -(j : Int) + 1 = -((j - 1 : Nat) : Int) := by omega
    simp only [if_neg hq, he1, if_neg (hneg (j - 1) (by omega)), htoNat]
    refine ⟨_, j - 1, by omega, rfl, ?_, round_core (n * 2 ^ (j - 1)) d hd⟩
    rw [hpow] at hq2
    have h3 : n * (2 * 2 ^ (j - 1)) = 2 * (n * 2 ^ (j - 1)) := by ring
    omega

theorem round_of_pos (n d : Nat) (hn : 0 < n) (hd : 0 < d) (hlt : n < 2 ^ 52 * d) :
    ∃ m K : Nat, 1 ≤ K ∧ Float64.round (n : Int) d = ⟨(m : Int), K⟩
      ∧ 2 ^ 52 * d ≤ n * 2 ^ K
      ∧ 2 * (m * d) ≤ 2 * (n * 2 ^ K) + d
      ∧ 2 * (n * 2 ^ K) ≤ 2 * (m * d) + d
      ∧ (d ∣ n * 2 ^ K → m * d = n * 2 ^ K) := by
  obtain ⟨m, K, hK, hround, h1, h2, h3, h4⟩ := roundPos_spec n d hn hd hlt
  refine ⟨m, K, hK, ?_, h1, h2, h3, h4⟩
  have hn0 : ¬ ((n : Int) = 0) := by omega
  have hneg : ¬ (0 ≤ -(K : Int)) := by omega
  have hnn : ¬ ((n : Int) < 0) := by omega
  have htoNat : (- -(K : Int)).toNat = K := by omega
  unfold Float64.round
  simp only [if_neg hn0, Int.natAbs_ofNat, hround, if_neg hneg, if_neg hnn, htoNat, one_mul]

theorem round_neg (n : Int) (d : Nat) :
    Float64.round (-n) d = (Float64.round n d).neg := by
  unfold Float64.round Float64.neg
  by_cases h0 : n = 0
  · subst h0; simp
  · have h1 : ¬ (-n = 0) := by omega
    simp only [if_neg h0, if_neg h1, Int.natAbs_neg]
    rcases lt_or_gt_of_ne h0 with hlt | hgt
    · have h2 : ¬ (-n < 0) := by omega
      simp only [if_pos hlt, if_neg h2]
      split_ifs <;> simp
    · have h2 : -n < 0 := by omega
      have h3 : ¬ (n < 0) := by omega
      simp only [if_pos h2, if_neg h3]
      split_ifs <;> simp

/-- Rounding a positive ratio below `2 ^ 52`: the result is non-negative, within a relative
error of `2 ^ (-53)` of the ratio, and equal to it when the ratio is an integer. -/
theorem toRat_round_of_pos (n d : Nat) (hn : 0 < n) (hd : 0 < d) (hlt : n < 2 ^ 52 * d) :
    0 ≤ (Float64.round (n : Int) d).num
    ∧ (Float64.round (n : Int) d).toRat ≤ (n : ℚ) / d + (n : ℚ) / d / 2 ^ 53
    ∧ (n : ℚ) / d - (n : ℚ) / d / 2 ^ 53 ≤ (Float64.round (n : Int) d).toRat
    ∧ (∀ s : Nat, n = s * d → (Float64.round (n : Int) d).toRat = s) := by
  obtain ⟨m, K, hK, hround, h1, h2, h3, h4⟩ := round_of_pos n d hn hd hlt
  rw [hround]
  unfold Float64.toRat
  simp only [Int.cast_natCast]
  have hdq : (0 : ℚ) < d := by exact_mod_cast hd
  have hP : (0 : ℚ) < 2 ^ K := by positivity
  have q1 : (2 : ℚ) ^ 52 * d ≤ n * 2 ^ K := by exact_mod_cast h1
  have q2 : 2 * ((m : ℚ) * d) ≤ 2 * (n * 2 ^ K) + d := by exact_mod_cast h2
  have q3 : 2 * ((n : ℚ) * 2 ^ K) ≤ 2 * (m * d) + d := by exact_mod_cast h3
  refine ⟨by positivity, ?_, ?_, ?_⟩
  · rw [div_le_iff₀ hP]
    have e1 : ((n : ℚ) / d + (n : ℚ) / d / 2 ^ 53) * 2 ^ K
        = ((n : ℚ) * 2 ^ K + (n : ℚ) * 2 ^ K / 2 ^ 53) / d := by
      field_simp
      ring
    rw [e1, le_div_iff₀ hdq]
    have e2 : (n : ℚ) * 2 ^ K / 2 ^ 53 ≥ d / 2 := by
      rw [ge_iff_le, div_le_div_iff₀ (by norm_num) (by positivity)]
      nlinarith
    linarith
  · rw [le_div_iff₀ hP]
    have e1 : ((n : ℚ) / d - (n : ℚ) / d / 2 ^ 53) * 2 ^ K
        = ((n : ℚ) * 2 ^ K - (n : ℚ) * 2 ^ K / 2 ^ 53) / d := by
      field_simp
      ring
    rw [e1, div_le_iff₀ hdq]
    have e2 : (n : ℚ) * 2 ^ K / 2 ^ 53 ≥ d / 2 := by
      rw [ge_iff_le, div_le_div_iff₀ (by norm_num) (by positivity)]
      nlinarith
    linarith
  · intro s hs
    have hdvd : d ∣ n * 2 ^ K := by
      rw [hs]
      exact Dvd.intro_left (s * 2 ^ K) (by ring)
    have h5 := h4 hdvd
    have q5 : (m : ℚ) * d = n * 2 ^ K := by exact_mod_cast h5
    have q6 : (n : ℚ) = s * d := by exact_mod_cast hs
    rw [div_eq_iff (ne_of_gt hP)]
    rw [q6] at q5
    have : ((m : ℚ) - s * 2 ^ K) * d = 0 := by linarith
    rcases mul_eq_zero.mp this with h | h
    · linarith
    · exact absurd h (ne_of_gt hdq)

/-- The rounding facts for a positive integer numerator, the ratio bounded as a rational. -/
theorem toRat_round_int (n : Int) (d : Nat) (hn : 0 < n) (hd : 0 < d)
    (hlt : (n : ℚ) / d < 2 ^ 52) :
    0 ≤ (Float64.round n d).num
    ∧ (Float64.round n d).toRat ≤ (n : ℚ) / d + (n : ℚ) / d / 2 ^ 53
    ∧ (n : ℚ) / d - (n : ℚ) / d / 2 ^ 53 ≤ (Float64.round n d).toRat
    ∧ (∀ s : Nat, (n : ℚ) / d = s → (Float64.round n d).toRat = s) := by
  obtain ⟨k, rfl⟩ := Int.eq_ofNat_of_zero_le hn.le
  have hk : 0 < k := by exact_mod_cast hn
  have hdq : (0 : ℚ) < d := by exact_mod_cast hd
  simp only [Int.cast_natCast] at hlt ⊢
  have hlt2 : k < 2 ^ 52 * d := by
    rw [div_lt_iff₀ hdq] at hlt
    exact_mod_cast hlt
  obtain ⟨h1, h2, h3, h4⟩ := toRat_round_of_pos k d hk hd hlt2
  refine ⟨h1, h2, h3, ?_⟩
  intro s hs
  apply h4 s
  rw [div_eq_iff (ne_of_gt hdq)] at hs
  exact_mod_cast hs

/-- The `float64` sum of two values whose exact sum is positive and below `2 ^ 52`. -/
theorem toRat_add (a b : Float64) (hpos : 0 < a.toRat + b.toRat)
    (hlt : a.toRat + b.toRat < 2 ^ 52) :
    0 ≤ (Float64.add a b).num
    ∧ (Float64.add a b).toRat ≤ (a.toRat + b.toRat) + (a.toRat + b.toRat) / 2 ^ 53
    ∧ (a.toRat + b.toRat) - (a.toRat + b.toRat) / 2 ^ 53 ≤ (Float64.add a b).toRat
    ∧ (∀ s : Nat, a.toRat + b.toRat = s → (Float64.add a b).toRat = s) := by
  have hratio : ((a.num * 2 ^ b.scale + b.num * 2 ^ a.scale : Int) : ℚ)
      / ((2 ^ (a.scale + b.scale) : Nat) : ℚ) = a.toRat + b.toRat := by
    unfold Float64.toRat
    have h1 : (2 : ℚ) ^ a.scale ≠ 0 := by positivity
    have h2 : (2 : ℚ) ^ b.scale ≠ 0 := by positivity
    rw [div_add_div _ _ h1 h2]
    push_cast
    rw [pow_add]
    congr 1
    ring
  have hd : 0 < 2 ^ (a.scale + b.scale) := by positivity
  have hn : 0 < a.num * 2 ^ b.scale + b.num * 2 ^ a.scale := by
    have hdq : (0 : ℚ) < ((2 ^ (a.scale + b.scale) : Nat) : ℚ) := by exact_mod_cast hd
    rw [← hratio] at hpos
    have := (div_pos_iff_of_pos_right hdq).mp hpos
    exact_mod_cast this
  have key := toRat_round_int (a.num * 2 ^ b.scale + b.num * 2 ^ a.scale)
    (2 ^ (a.scale + b.scale)) hn hd (by rw [hratio]; exact hlt)
  rw [hratio] at key
  exact key

/-- The `float64` quotient of two positive values whose exact quotient is below `2 ^ 52`. -/
theorem toRat_div (a b : Float64) (ha : 0 < a.num) (hb : 0 < b.num)
    (hlt : a.toRat / b.toRat < 2 ^ 52) :
    0 ≤ (Float64.div a b).num
    ∧ (Float64.div a b).toRat ≤ a.toRat / b.toRat + a.toRat / b.toRat / 2 ^ 53
    ∧ a.toRat / b.toRat - a.toRat / b.toRat / 2 ^ 53 ≤ (Float64.div a b).toRat
    ∧ (∀ s : Nat, a.toRat / b.toRat = s → (Float64.div a b).toRat = s) := by
  obtain ⟨bn, hbn⟩ := Int.eq_ofNat_of_zero_le hb.le
  have hbn0 : 0 < bn := by omega
  have hratio : ((1 * a.num * 2 ^ b.scale : Int) : ℚ)
      / ((b.num.natAbs * 2 ^ a.scale : Nat) : ℚ) = a.toRat / b.toRat := by
    unfold Float64.toRat
    rw [hbn]
    have hbq : (0 : ℚ) < bn := by exact_mod_cast hbn0
    push_cast
    simp only [Int.natAbs_ofNat]
    field_simp
    ring
  have hd : 0 < b.num.natAbs * 2 ^ a.scale := by
    rw [hbn, Int.natAbs_ofNat]
    positivity
  have hn : 0 < 1 * a.num * 2 ^ b.scale := by positivity
  have key := toRat_round_int (1 * a.num * 2 ^ b.scale) (b.num.natAbs * 2 ^ a.scale) hn hd
    (by rw [hratio]; exact hlt)
  rw [hratio] at key
  have hdiv : Float64.div a b
      = Float64.round (1 * a.num * 2 ^ b.scale) (b.num.natAbs * 2 ^ a.scale) := by
    unfold Float64.div
    simp only [if_neg (show ¬ (b.num < 0) by omega)]
  rw [hdiv]
  exact key

theorem toRat_zero : (⟨0, 0⟩ : Float64).toRat = 0 := by
  simp [Float64.toRat]

theorem ofInt_zero : Float64.ofInt 0 = ⟨0, 0⟩ := by
  simp [Float64.ofInt, Float64.round]

/-- Conversion of a natural number below `2 ^ 52` to `float64` is exact. -/
theorem toRat_ofInt (i : Nat) (hi : i < 2 ^ 52) :
    (Float64.ofInt (i : Int)).toRat = i
    ∧ 0 ≤ (Float64.ofInt (i : Int)).num
    ∧ (0 < i → 0 < (Float64.ofInt (i : Int)).num) := by
  rcases Nat.eq_zero_or_pos i with h0 | hpos
  · subst h0
    simp [ofInt_zero, toRat_zero]
  · have hlt : (((i : Int) : ℚ)) / ((1 : Nat) : ℚ) < 2 ^ 52 := by
      simp only [Int.cast_natCast, Nat.cast_one, div_one]
      exact_mod_cast hi
    obtain ⟨h1, _, _, h4⟩ := toRat_round_int (i : Int) 1 (by exact_mod_cast hpos) (by norm_num) hlt
    have h5 : (Float64.ofInt (i : Int)).toRat = i := h4 i (by simp)
    refine ⟨h5, h1, fun _ => ?_⟩
    rcases lt_or_eq_of_le h1 with h | h
    · exact h
    · exfalso
      have h6 : (Float64.ofInt (i : Int)).toRat = 0 := by
        unfold Float64.toRat
        unfold Float64.ofInt
        rw [← h]
        simp
      rw [h5] at h6
      have : (0 : ℚ) < i := by exact_mod_cast hpos
      linarith

theorem div_zero_num (b : Float64) : Float64.div ⟨0, 0⟩ b = ⟨0, 0⟩ := by
  simp [Float64.div, Float64.round]

/-- The integer conversion of a non-negative `float64` value lying in `[s, s + 1)` is `s`. -/
theorem toInt64_of_bounds (f : Float64) (s : Nat) (h0 : 0 ≤ f.num)
    (h1 : (s : ℚ) ≤ f.toRat) (h2 : f.toRat < s + 1) : f.toInt64 = s := by
  unfold Float64.toRat at h1 h2
  unfold Float64.toInt64
  have hP : (0 : ℚ) < 2 ^ f.scale := by positivity
  have hPi : (0 : Int) < 2 ^ f.scale := by positivity
  rw [le_div_iff₀ hP] at h1
  rw [div_lt_iff₀ hP] at h2
  have i1 : (s : Int) * 2 ^ f.scale ≤ f.num := by exact_mod_cast h1
  have i2 : f.num < ((s : Int) + 1) * 2 ^ f.scale := by exact_mod_cast h2
  rw [Int.tdiv_eq_ediv h0 hPi.le]
  have j1 : (s : Int) ≤ f.num / 2 ^ f.scale := (Int.le_ediv_iff_mul_le hPi).mpr i1
  have j2 : f.num / 2 ^ f.scale < (s : Int) + 1 := (Int.ediv_lt_iff_lt_mul hPi).mpr i2
  omega

theorem toInt64_neg (f : Float64) : f.neg.toInt64 = -f.toInt64 := by
  simp [Float64.neg, Float64.toInt64, Int.neg_tdiv]

theorem ofInt_neg (i : Int) : Float64.ofInt (-i) = (Float64.ofInt i).neg := by
  simp [Float64.ofInt, round_neg]

theorem div_neg_left (a b : Float64) : Float64.div a.neg b = (Float64.div a b).neg := by
  unfold Float64.div
  have hnum : a.neg.num = -a.num := rfl
  have hscale : a.neg.scale = a.scale := rfl
  have e : (if b.num < 0 then -1 else 1) * (-a.num) * 2 ^ b.scale
      = -((if b.num < 0 then -1 else 1) * a.num * 2 ^ b.scale) := by ring
  simp only [hnum, hscale, e, round_neg]

theorem add_neg_neg (a b : Float64) : Float64.add a.neg b.neg = (Float64.add a b).neg := by
  unfold Float64.add
  have hnum : ∀ f : Float64, f.neg.num = -f.num := fun _ => rfl
  have hscale : ∀ f : Float64, f.neg.scale = f.scale := fun _ => rfl
  have e : -a.num * 2 ^ b.scale + -b.num * 2 ^ a.scale
      = -(a.num * 2 ^ b.scale + b.num * 2 ^ a.scale) := by ring
  simp only [hnum, hscale, e, round_neg]

theorem Seconds_neg (d : Duration) : Duration.Seconds (-d) = (Duration.Seconds d).neg := by
  unfold Duration.Seconds
  have h1 : Int.tdiv (-d) Second = -Int.tdiv d Second := Int.neg_tdiv d Second
  have h2 : Int.tmod (-d) Second = -Int.tmod d Second := by
    have e1 := Int.tdiv_add_tmod d Second
    have e2 := Int.tdiv_add_tmod (-d) Second
    rw [h1] at e2
    linarith
  simp only [h1, h2, ofInt_neg, div_neg_left, add_neg_neg]

/-- The heart of `Duration.Seconds` followed by `int64`, for `sec` whole seconds and `nsec`
further nanoseconds: exact when `nsec = 0`, and the fraction is discarded when `sec` is below
nine million. -/
theorem seconds_core (sec nsec : Nat) (hnsec : nsec < 1000000000) :
    (nsec = 0 → sec < 2 ^ 52 →
      (Float64.add (Float64.ofInt sec)
        (Float64.div (Float64.ofInt nsec) (Float64.ofInt 1000000000))).toInt64 = sec)
    ∧ (sec < 9000000 →
      (Float64.add (Float64.ofInt sec)
        (Float64.div (Float64.ofInt nsec) (Float64.ofInt 1000000000))).toInt64 = sec) := by
  have whole : nsec = 0 → sec < 2 ^ 52 →
      (Float64.add (Float64.ofInt sec)
        (Float64.div (Float64.ofInt nsec) (Float64.ofInt 1000000000))).toInt64 = sec := by
    intro h0 hsec
    subst h0
    rw [Nat.cast_zero, ofInt_zero, div_zero_num]
    obtain ⟨hA, _, _⟩ := toRat_ofInt sec hsec
    rcases Nat.eq_zero_or_pos sec with hz | hpos
    · subst hz
      simp [ofInt_zero, Float64.add, Float64.round, Float64.toInt64]
    · have hsum : (Float64.ofInt (sec : Int)).toRat + (⟨0, 0⟩ : Float64).toRat = sec := by
        rw [hA, toRat_zero, add_zero]
      have hsecq : (0 : ℚ) < sec := by exact_mod_cast hpos
      have hsecq2 : (sec : ℚ) < 2 ^ 52 := by exact_mod_cast hsec
      obtain ⟨h1, _, _, h4⟩ := toRat_add (Float64.ofInt (sec : Int)) ⟨0, 0⟩
        (by rw [hsum]; exact hsecq) (by rw [hsum]; exact hsecq2)
      have hY := h4 sec hsum
      exact toInt64_of_bounds _ sec h1 (by rw [hY]) (by rw [hY]; linarith)
  refine ⟨whole, ?_⟩
  intro hsec
  rcases Nat.eq_zero_or_pos nsec with hz | hpos
  · exact whole hz (lt_trans hsec (by norm_num))
  · obtain ⟨hA, _, _⟩ := toRat_ofInt sec (lt_trans hsec (by norm_num))
    obtain ⟨hB, _, hBpos⟩ := toRat_ofInt nsec (lt_trans hnsec (by norm_num))
    obtain ⟨hC, _, hCpos⟩ := toRat_ofInt 1000000000 (by norm_num)
    simp only [Nat.cast_ofNat] at hC hCpos
    have hnq1 : (1 : ℚ) ≤ nsec := by exact_mod_cast hpos
    have hnq2 : (nsec : ℚ) ≤ 999999999 := by
      have : nsec ≤ 999999999 := by omega
      exact_mod_cast this
    have hq1 : (1 : ℚ) / 1000000000 ≤ (nsec : ℚ) / 1000000000 := by
      apply div_le_div_of_nonneg_right hnq1 (by norm_num)
    have hq2 : (nsec : ℚ) / 1000000000 ≤ 999999999 / 1000000000 := by
      apply div_le_div_of_nonneg_right hnq2 (by norm_num)
    have hratio : (Float64.ofInt (nsec : Int)).toRat / (Float64.ofInt 1000000000).toRat
        = (nsec : ℚ) / 1000000000 := by rw [hB, hC]
    obtain ⟨_, hx1, hx2, _⟩ := toRat_div (Float64.ofInt (nsec : Int)) (Float64.ofInt 1000000000)
      (hBpos hpos) (hCpos (by norm_num))
      (by rw [hratio]; exact lt_of_le_of_lt hq2 (by norm_num))
    rw [hratio] at hx1 hx2
    have hsq : (sec : ℚ) ≤ 8999999 := by
      have : sec ≤ 8999999 := by omega
      exact_mod_cast this
    have hs0 : (0 : ℚ) ≤ sec := by positivity
    have hpow : (2 : ℚ) ^ 53 = 9007199254740992 := by norm_num
    rw [hpow] at hx1 hx2
    obtain ⟨hy0, hy1, hy2, _⟩ := toRat_add (Float64.ofInt (sec : Int))
      (Float64.div (Float64.ofInt (nsec : Int)) (Float64.ofInt 1000000000))
      (by rw [hA]; linarith) (by rw [hA]; norm_num; linarith)
    rw [hA, hpow] at hy1 hy2
    exact toInt64_of_bounds _ sec hy0 (by linarith) (by linarith)

/-- For a non-negative duration, `int64(d.Seconds())` is `d / Second` when `d` is a whole
number of seconds below `2 ^ 52` seconds, and when `d` is below nine million seconds. -/
theorem Seconds_toInt64_nonneg (d : Int) (hd : 0 ≤ d) :
    (Int.tmod d Second = 0 → d < 2 ^ 52 * Second →
      (Duration.Seconds d).toInt64 = Int.tdiv d Second)
    ∧ (d < 9000000 * Second → (Duration.Seconds d).toInt64 = Int.tdiv d Second) := by
  have hsec0 : 0 ≤ Int.tdiv d 1000000000 := Int.tdiv_nonneg hd (by norm_num)
  have hnsec0 : 0 ≤ Int.tmod d 1000000000 := Int.tmod_nonneg _ hd
  have hnsec1 : Int.tmod d 1000000000 < 1000000000 := Int.tmod_lt_of_pos d (by norm_num)
  have hsum : (1000000000 : Int) * Int.tdiv d 1000000000 + Int.tmod d 1000000000 = d :=
    Int.tdiv_add_tmod d 1000000000
  obtain ⟨sec, hsec⟩ := Int.eq_ofNat_of_zero_le hsec0
  obtain ⟨nsec, hnsec⟩ := Int.eq_ofNat_of_zero_le hnsec0
  rw [hsec, hnsec] at hsum
  rw [hnsec] at hnsec1
  have hsec2 : Int.tdiv d Second = sec := hsec
  have hnsec2 : Int.tmod d Second = nsec := hnsec
  obtain ⟨hwhole, htrunc⟩ := seconds_core sec nsec (by omega)
  unfold Duration.Seconds
  simp only [hsec2, hnsec2]
  constructor
  · intro h0 hlt
    have h0i : (nsec : Int) = 0 := h0
    have hlti : d < 2 ^ 52 * (1000000000 : Int) := hlt
    exact hwhole (by omega) (by omega)
  · intro hlt
    have hlti : d < 9000000 * (1000000000 : Int) := hlt
    exact htrunc (by omega)

/-- Below nine million seconds in magnitude, `int64(d.Seconds())` is `d / Second`, truncated
toward zero. -/
theorem Seconds_toInt64_truncates (d : Int)
    (hlo : -(9000000 * Second) < d) (hhi : d < 9000000 * Second) :
    (Duration.Seconds d).toInt64 = Int.tdiv d Second := by
  have hloi : -(9000000 * (1000000000 : Int)) < d := hlo
  rcases le_or_lt 0 d with hd | hd
  · exact (Seconds_toInt64_nonneg d hd).2 hhi
  · have h1 := (Seconds_toInt64_nonneg (-d) (by omega)).2
      (show -d < 9000000 * (1000000000 : Int) by omega)
    rw [Seconds_neg, toInt64_neg, Int.neg_tdiv] at h1
    exact neg_injective h1

/-- For a whole number `s` of seconds within the range of `time.Duration`,
`int64(d.Seconds())` is `s`. -/
theorem Seconds_toInt64_whole (s : Int) (hlo : -9223372036 ≤ s) (hhi : s ≤ 9223372036) :
    (Duration.Seconds (s * Second)).toInt64 = s := by
  have hS : Second ≠ 0 := by decide
  have hdiv : ∀ t : Int, Int.tdiv (t * Second) Second = t := fun t => Int.mul_tdiv_cancel t hS
  have hmod : ∀ t : Int, Int.tmod (t * Second) Second = 0 := fun t => Int.mul_tmod_left t Second
  rcases le_or_lt 0 s with hs | hs
  · have h1 := (Seconds_toInt64_nonneg (s * Second)
      (show (0 : Int) ≤ s * 1000000000 by omega)).1 (hmod s)
      (show s * (1000000000 : Int) < 2 ^ 52 * (1000000000 : Int) by omega)
    rw [h1, hdiv]
  · have h1 := (Seconds_toInt64_nonneg (-s * Second)
      (show (0 : Int) ≤ -s * 1000000000 by omega)).1 (hmod (-s))
      (show -s * (1000000000 : Int) < 2 ^ 52 * (1000000000 : Int) by omega)
    rw [hdiv, neg_mul, Seconds_neg, toInt64_neg] at h1
    exact neg_injective h1

set_option maxRecDepth 100000 in
/-- Counterexample to C12: a timeout of 8589934592.999999999 seconds (a valid
`time.Duration`, below `2 ^ 63` nanoseconds) has a fractional part, and its seconds truncated
toward zero are 8589934592; the job built by `New` gets the deadline 8589934593, because the
`float64` sum in `Duration.Seconds` rounds up to the next whole number. -/
theorem New_job_deadline_rounds_up_large_fractional_timeout :
    (New (sampleClient 6 false) { Timeout := 8589934592999999999 }).job.bind
        (fun job => job.Spec.ActiveDeadlineSeconds) = some 8589934593
    ∧ Int.tdiv 8589934592999999999 Second = 8589934592
    ∧ Int.tmod 8589934592999999999 Second = 999999999
    ∧ (8589934592999999999 : Int) < 2 ^ 63 := by
  decide

/-- Claim C12, amended. For every client and `Config`, the `ActiveDeadlineSeconds` of the job
built by `New` is `int64(Timeout.Seconds())`, computed in `float64`. For a timeout of `s`
whole seconds, `s` within the range of `time.Duration`, it is `s`. For a timeout of magnitude
below 9000000 seconds, with or without a fractional part, it is the timeout's seconds
truncated toward zero. -/
theorem New_job_deadline_is_timeout_seconds {W : Type} (c : Client W) (checkupConfig : Config) :
    (New c checkupConfig).job.bind (fun job => job.Spec.ActiveDeadlineSeconds) =
        some (Duration.Seconds checkupConfig.Timeout).toInt64
    ∧ (∀ s : Int, -9223372036 ≤ s → s ≤ 9223372036 → checkupConfig.Timeout = s * Second →
        (New c checkupConfig).job.bind (fun job => job.Spec.ActiveDeadlineSeconds) = some s)
    ∧ (-(9000000 * Second) < checkupConfig.Timeout → checkupConfig.Timeout < 9000000 * Second →
        (New c checkupConfig).job.bind (fun job => job.Spec.ActiveDeadlineSeconds) =
          some (Int.tdiv checkupConfig.Timeout Second)) := by
  have hjob : (New c checkupConfig).job.bind (fun job => job.Spec.ActiveDeadlineSeconds) =
      some (Duration.Seconds checkupConfig.Timeout).toInt64 := rfl
  refine ⟨hjob, ?_, ?_⟩
  · intro s hlo hhi hs
    rw [hjob, hs, Seconds_toInt64_whole s hlo hhi]
  · intro hlo hhi
    rw [hjob, Seconds_toInt64_truncates checkupConfig.Timeout hlo hhi]

/-- Witness for C12 (amended): a timeout of 60 seconds gives the deadline 60, and a timeout
of one and a half seconds gives the deadline 1. -/
theorem New_job_deadline_is_timeout_seconds_witness :
    (New (sampleClient 6 false) { Timeout := 60 * Second }).job.bind
        (fun job => job.Spec.ActiveDeadlineSeconds) = some 60
    ∧ (New (sampleClient 6 false) { Timeout := 1500000000 }).job.bind
        (fun job => job.Spec.ActiveDeadlineSeconds) = some (Int.tdiv 1500000000 Second) :=
  ⟨(New_job_deadline_is_timeout_seconds (sampleClient 6 false) { Timeout := 60 * Second }).2.1
      60 (by decide) (by decide) rfl,
    (New_job_deadline_is_timeout_seconds (sampleClient 6 false) { Timeout := 1500000000 }).2.2
      (by decide) (by decide)⟩

end Kiagnose
